import Mathlib

/-!
Verification of the SPIR-V reflection parser (`src/parser.rs`) against its
natural-language specification.

The development shallowly embeds the parser: the SPIR-V word stream is a
`List Nat` of 32-bit words (each `< 2^32`, as enforced by the Rust `&[u32]`
slice type), machine arithmetic is `Nat` with explicit wrapping (`w32*`
helpers) where the Rust `u32` operations can wrap, fallible code returns
`Except String`, and the two potentially non-terminating scan loops are
fuel-indexed, returning `none` exactly when the Rust loop would run forever.

The SPIR-V opcode/enum vocabulary (`spirv_headers` crate) is external to the
repository; it is embedded here as a value-typed vocabulary restricted to the
opcodes the parser mentions, with a `OtherOp` constructor covering the other
opcode numbers assigned by the SPIR-V specification (the claims settled below
do not depend on the exact extent of that set, only on specific opcode
numbers and on the existence of unassigned numbers such as 9).
-/

namespace SpirvReflect

deriving instance DecidableEq for Except

/-- `u32::MAX`, used by the parser as the "unassigned" sentinel. -/
def UMAX : Nat := 4294967295

/-- `usize::MAX`, used by `parse_nodes` as the "no current function" sentinel. -/
def USIZE_MAX : Nat := 18446744073709551615

/-- 2^32, the u32 modulus. -/
def U32MOD : Nat := 4294967296

/-- Wrapping u32 addition (Rust release-mode `+` on `u32`). -/
def w32add (a b : Nat) : Nat := (a + b) % U32MOD

/-- Wrapping u32 subtraction (Rust release-mode `-` on `u32`). -/
def w32sub (a b : Nat) : Nat := (a % U32MOD + (U32MOD - b % U32MOD)) % U32MOD

/-- Wrapping u32 multiplication (Rust release-mode `*` on `u32`). -/
def w32mul (a b : Nat) : Nat := (a * b) % U32MOD

/-- Low 16 bits of a word: `word & 0x0000FFFF`. -/
def low16 (w : Nat) : Nat := w % 65536

/-- High 16 bits of a word: `(word >> 16) & 0xFFFF`. -/
def high16 (w : Nat) : Nat := (w / 65536) % 65536

/-- The u32 value reinterpreted as an `i32` (the `as i32` casts in the
sorting comparators of `parser.rs`). -/
def toI32 (n : Nat) : Int :=
  if n % U32MOD < 2147483648 then (n % U32MOD : Int) else (n % U32MOD : Int) - (U32MOD : Int)

/-- `x & !(16 - 1)`: clear the low 4 bits (the SPIRV_DATA_ALIGN mask in
`parse_descriptor_block_variable_sizes`). -/
def alignDown16 (x : Nat) : Nat := x - x % 16

/-- Indexing `spv_words[i]`; Rust panics when out of bounds, which the
embedding reports as a distinguished error. -/
def wordAt (words : List Nat) (i : Nat) : Except String Nat :=
  match words[i]? with
  | some w => .ok w
  | none => .error "panic: index out of bounds"

/-- Indexing used only in positions the surrounding control flow proves
in-bounds (or dead); out-of-range reads default to 0. -/
def wordAtD (words : List Nat) (i : Nat) : Nat := words.getD i 0

/-- `parser.rs`: `pub const STARTING_WORD: usize = 5;` -/
def STARTING_WORD : Nat := 5

/-- `parser.rs`: `SPIRV_WORD_SIZE = size_of::<u32>() = 4`. -/
def SPIRV_WORD_SIZE : Nat := 4

/-- `parser.rs`: `SPIRV_BYTE_WIDTH = 8`. -/
def SPIRV_BYTE_WIDTH : Nat := 8

/-- The subset of the `spirv_headers::Op` vocabulary named by `parser.rs`,
with `OtherOp n` standing for any other opcode number assigned by the SPIR-V
specification. -/
inductive Op where
  | Undef
  | Source
  | Name
  | MemberName
  | String
  | EntryPoint
  | TypeVoid
  | TypeBool
  | TypeInt
  | TypeFloat
  | TypeVector
  | TypeMatrix
  | TypeImage
  | TypeSampler
  | TypeSampledImage
  | TypeArray
  | TypeRuntimeArray
  | TypeStruct
  | TypeOpaque
  | TypePointer
  | TypeFunction
  | TypeEvent
  | TypeDeviceEvent
  | TypeReserveId
  | TypeQueue
  | TypePipe
  | TypeForwardPointer
  | TypeAccelerationStructureNV
  | ConstantTrue
  | ConstantFalse
  | Constant
  | ConstantComposite
  | ConstantSampler
  | ConstantNull
  | Function
  | FunctionEnd
  | FunctionCall
  | Variable
  | Load
  | Store
  | CopyMemory
  | CopyMemorySized
  | AccessChain
  | InBoundsAccessChain
  | PtrAccessChain
  | ArrayLength
  | GenericPtrMemSemantics
  | InBoundsPtrAccessChain
  | Decorate
  | MemberDecorate
  | DecorateId
  | DecorateString
  | MemberDecorateStringGOOGLE
  | Label
  | OtherOp (n : Nat)
  deriving Repr, Inhabited

/-- An injective numeric code for `Op`, used to decide opcode equality with
a shallow instance term. -/
def Op.code : Op → Nat
  | .Undef => 0
  | .Source => 1
  | .Name => 2
  | .MemberName => 3
  | .String => 4
  | .EntryPoint => 5
  | .TypeVoid => 6
  | .TypeBool => 7
  | .TypeInt => 8
  | .TypeFloat => 9
  | .TypeVector => 10
  | .TypeMatrix => 11
  | .TypeImage => 12
  | .TypeSampler => 13
  | .TypeSampledImage => 14
  | .TypeArray => 15
  | .TypeRuntimeArray => 16
  | .TypeStruct => 17
  | .TypeOpaque => 18
  | .TypePointer => 19
  | .TypeFunction => 20
  | .TypeEvent => 21
  | .TypeDeviceEvent => 22
  | .TypeReserveId => 23
  | .TypeQueue => 24
  | .TypePipe => 25
  | .TypeForwardPointer => 26
  | .TypeAccelerationStructureNV => 27
  | .ConstantTrue => 28
  | .ConstantFalse => 29
  | .Constant => 30
  | .ConstantComposite => 31
  | .ConstantSampler => 32
  | .ConstantNull => 33
  | .Function => 34
  | .FunctionEnd => 35
  | .FunctionCall => 36
  | .Variable => 37
  | .Load => 38
  | .Store => 39
  | .CopyMemory => 40
  | .CopyMemorySized => 41
  | .AccessChain => 42
  | .InBoundsAccessChain => 43
  | .PtrAccessChain => 44
  | .ArrayLength => 45
  | .GenericPtrMemSemantics => 46
  | .InBoundsPtrAccessChain => 47
  | .Decorate => 48
  | .MemberDecorate => 49
  | .DecorateId => 50
  | .DecorateString => 51
  | .MemberDecorateStringGOOGLE => 52
  | .Label => 53
  | .OtherOp n => n + 54

/-- Left inverse of `Op.code`. -/
def Op.decode (k : Nat) : Op :=
  if k < 54 then
    match k with
    | 0 => .Undef
    | 1 => .Source
    | 2 => .Name
    | 3 => .MemberName
    | 4 => .String
    | 5 => .EntryPoint
    | 6 => .TypeVoid
    | 7 => .TypeBool
    | 8 => .TypeInt
    | 9 => .TypeFloat
    | 10 => .TypeVector
    | 11 => .TypeMatrix
    | 12 => .TypeImage
    | 13 => .TypeSampler
    | 14 => .TypeSampledImage
    | 15 => .TypeArray
    | 16 => .TypeRuntimeArray
    | 17 => .TypeStruct
    | 18 => .TypeOpaque
    | 19 => .TypePointer
    | 20 => .TypeFunction
    | 21 => .TypeEvent
    | 22 => .TypeDeviceEvent
    | 23 => .TypeReserveId
    | 24 => .TypeQueue
    | 25 => .TypePipe
    | 26 => .TypeForwardPointer
    | 27 => .TypeAccelerationStructureNV
    | 28 => .ConstantTrue
    | 29 => .ConstantFalse
    | 30 => .Constant
    | 31 => .ConstantComposite
    | 32 => .ConstantSampler
    | 33 => .ConstantNull
    | 34 => .Function
    | 35 => .FunctionEnd
    | 36 => .FunctionCall
    | 37 => .Variable
    | 38 => .Load
    | 39 => .Store
    | 40 => .CopyMemory
    | 41 => .CopyMemorySized
    | 42 => .AccessChain
    | 43 => .InBoundsAccessChain
    | 44 => .PtrAccessChain
    | 45 => .ArrayLength
    | 46 => .GenericPtrMemSemantics
    | 47 => .InBoundsPtrAccessChain
    | 48 => .Decorate
    | 49 => .MemberDecorate
    | 50 => .DecorateId
    | 51 => .DecorateString
    | 52 => .MemberDecorateStringGOOGLE
    | _ => .Label
  else .OtherOp (k - 54)

theorem Op.decode_code (a : Op) : Op.decode a.code = a := by
  cases a
  case OtherOp n =>
    show Op.decode (n + 54) = Op.OtherOp n
    unfold Op.decode
    rw [if_neg (by omega)]
    congr 1
  all_goals rfl

instance : DecidableEq Op := fun a b =>
  if h : a.code = b.code then
    isTrue (by rw [← Op.decode_code a, h, Op.decode_code])
  else isFalse (fun hab => h (hab ▸ rfl))

/-- Opcode numbers assigned by the SPIR-V specification that the parser does
not inspect by name; such instructions are scanned as `OtherOp n` nodes.
(The full assigned set is larger; the theorems below only depend on the
numbers appearing in their concrete inputs and on 9 being unassigned.) -/
def otherAssignedOpcode (n : Nat) : Bool :=
  n == 0 || n == 2 || n == 4 || n == 8 || n == 10 || n == 11 || n == 12 ||
  n == 14 || n == 16 || n == 17 || n == 40 || n == 58 || n == 60 ||
  n == 246 || n == 247 || n == 249 || n == 250 || n == 251 || n == 252 ||
  n == 253 || n == 254 || n == 255 || n == 256

/-- `spirv_headers::Op::from_u32`: the opcode number decoded to the tagged
variant, `none` for numbers the SPIR-V specification does not assign. -/
def Op.from_u32 (n : Nat) : Option Op :=
  match n with
  | 1 => some .Undef
  | 3 => some .Source
  | 5 => some .Name
  | 6 => some .MemberName
  | 7 => some .String
  | 15 => some .EntryPoint
  | 19 => some .TypeVoid
  | 20 => some .TypeBool
  | 21 => some .TypeInt
  | 22 => some .TypeFloat
  | 23 => some .TypeVector
  | 24 => some .TypeMatrix
  | 25 => some .TypeImage
  | 26 => some .TypeSampler
  | 27 => some .TypeSampledImage
  | 28 => some .TypeArray
  | 29 => some .TypeRuntimeArray
  | 30 => some .TypeStruct
  | 31 => some .TypeOpaque
  | 32 => some .TypePointer
  | 33 => some .TypeFunction
  | 34 => some .TypeEvent
  | 35 => some .TypeDeviceEvent
  | 36 => some .TypeReserveId
  | 37 => some .TypeQueue
  | 38 => some .TypePipe
  | 39 => some .TypeForwardPointer
  | 41 => some .ConstantTrue
  | 42 => some .ConstantFalse
  | 43 => some .Constant
  | 44 => some .ConstantComposite
  | 45 => some .ConstantSampler
  | 46 => some .ConstantNull
  | 54 => some .Function
  | 56 => some .FunctionEnd
  | 57 => some .FunctionCall
  | 59 => some .Variable
  | 61 => some .Load
  | 62 => some .Store
  | 63 => some .CopyMemory
  | 64 => some .CopyMemorySized
  | 65 => some .AccessChain
  | 66 => some .InBoundsAccessChain
  | 67 => some .PtrAccessChain
  | 68 => some .ArrayLength
  | 69 => some .GenericPtrMemSemantics
  | 70 => some .InBoundsPtrAccessChain
  | 71 => some .Decorate
  | 72 => some .MemberDecorate
  | 248 => some .Label
  | 332 => some .DecorateId
  | 5341 => some .TypeAccelerationStructureNV
  | 5632 => some .DecorateString
  | 5633 => some .MemberDecorateStringGOOGLE
  | n => if otherAssignedOpcode n then some (.OtherOp n) else none

/-- `spirv_headers::StorageClass` (the values the SPIR-V specification
assigns to storage-class numbers 0-12). -/
inductive StorageClass where
  | UniformConstant
  | Input
  | Uniform
  | Output
  | Workgroup
  | CrossWorkgroup
  | Private
  | Function
  | Generic
  | PushConstant
  | AtomicCounter
  | Image
  | StorageBuffer
  deriving DecidableEq, Repr, Inhabited

/-- `spirv_headers::StorageClass::from_u32`. -/
def StorageClass.from_u32 (n : Nat) : Option StorageClass :=
  match n with
  | 0 => some .UniformConstant
  | 1 => some .Input
  | 2 => some .Uniform
  | 3 => some .Output
  | 4 => some .Workgroup
  | 5 => some .CrossWorkgroup
  | 6 => some .Private
  | 7 => some .Function
  | 8 => some .Generic
  | 9 => some .PushConstant
  | 10 => some .AtomicCounter
  | 11 => some .Image
  | 12 => some .StorageBuffer
  | _ => none

/-- `spirv_headers::Dim::from_u32` (core dimensionalities 0-6); the variant
is kept as its raw number, the parser only stores it. -/
def dimFromU32 (n : Nat) : Option Nat := if n ≤ 6 then some n else none

/-- `spirv_headers::ImageFormat::from_u32` (assigned formats 0-41); kept as
its raw number, the parser only stores it. -/
def imageFormatFromU32 (n : Nat) : Option Nat := if n ≤ 41 then some n else none

/-- `parser.rs` `NumberDecoration`; `value` defaults to the `u32::MAX`
sentinel. -/
structure NumberDecoration where
  word_offset : Nat := 0
  value : Nat := UMAX
  deriving DecidableEq, Repr, Inhabited

/-- `parser.rs` `StringDecoration`; string payloads are kept as their raw
byte lists. -/
structure StringDecoration where
  word_offset : Nat := 0
  value : List Nat := []
  deriving DecidableEq, Repr, Inhabited

/-- `parser.rs` `Decorations`. -/
structure Decorations where
  is_block : Bool := false
  is_buffer_block : Bool := false
  is_row_major : Bool := false
  is_column_major : Bool := false
  is_noperspective : Bool := false
  is_flat : Bool := false
  is_non_writable : Bool := false
  set : NumberDecoration := {}
  binding : NumberDecoration := {}
  input_attachment_index : NumberDecoration := {}
  location : NumberDecoration := {}
  offset : NumberDecoration := {}
  uav_counter_buffer : NumberDecoration := {}
  semantic : StringDecoration := {}
  array_stride : Nat := 0
  matrix_stride : Nat := 0
  built_in : Option Nat := none
  deriving DecidableEq, Repr, Inhabited

/-- `parser.rs` `ParserArrayTraits`. -/
structure ParserArrayTraits where
  element_type_id : Nat := 0
  length_id : Nat := 0
  deriving DecidableEq, Repr, Inhabited

/-- `parser.rs` `ParserImageTraits`. -/
structure ParserImageTraits where
  sampled_type_id : Nat := 0
  dim : Option Nat := none
  depth : Nat := 0
  arrayed : Nat := 0
  ms : Nat := 0
  sampled : Nat := 0
  image_format : Option Nat := none
  deriving DecidableEq, Repr, Inhabited

/-- `parser.rs` `ParserNode`; field defaults follow the `Default` impl
(`op = Undef`, `storage_class = UniformConstant`). Name strings are kept as
raw byte lists. -/
structure ParserNode where
  result_id : Nat := 0
  op : Op := .Undef
  result_type_id : Nat := 0
  type_id : Nat := 0
  storage_class : StorageClass := .UniformConstant
  word_offset : Nat := 0
  word_count : Nat := 0
  is_type : Bool := false
  array_traits : ParserArrayTraits := {}
  image_traits : ParserImageTraits := {}
  image_type_id : Nat := 0
  name : List Nat := []
  decorations : Decorations := {}
  member_count : Nat := 0
  member_names : List (List Nat) := []
  member_decorations : List Decorations := []
  deriving DecidableEq, Repr, Inhabited

/-- The NUL-terminated byte extraction used for `OpName`/`OpString` payloads:
the words from `start` on, split little-endian into bytes, up to (excluding)
the first NUL. The Rust code does this through `CStr::from_ptr`. -/
def extractBytes (words : List Nat) (start : Nat) : List Nat :=
  ((words.drop start).flatMap
    (fun w => [w % 256, w / 256 % 256, w / 65536 % 256, w / 16777216 % 256])).takeWhile
    (fun b => b ≠ 0)

/-- `Parser::find_node`: index of the first node whose `result_id` matches. -/
def find_node (nodes : List ParserNode) (result_id : Nat) : Option Nat :=
  nodes.findIdx? (fun n => n.result_id == result_id)

/-- `spirv_headers::SourceLanguage::from_u32` (assigned values 0-5), kept as
its raw number. -/
def sourceLanguageFromU32 (n : Nat) : Option Nat := if n ≤ 5 then some n else none

/-- The mutable parser/module state threaded through `Parser::parse_nodes`:
the node vector, the `function_node` cursor (`usize::MAX` when no `OpFunction`
is open), the counters, and the `OpSource` fields written into the module. -/
structure PNState where
  nodes : List ParserNode := []
  function_node : Nat := USIZE_MAX
  string_count : Nat := 0
  type_count : Nat := 0
  entry_point_count : Nat := 0
  function_count : Nat := 0
  source_language : Option Nat := none
  source_language_version : Nat := 0
  source_file_id : Nat := 0
  deriving DecidableEq, Repr, Inhabited

/-- The opcode-specific part of one populate iteration of
`Parser::parse_nodes`: starting from the default node carrying only
`word_count`, `word_offset` and `op`, extract the fields of the matched
opcode and apply the counter / `OpSource` / function-cursor effects. The
`OpLabel` arm mutates the earlier `OpFunction` node in place. -/
def scanNodeFields (words : List Nat) (wi : Nat) (op : Op) (st : PNState) :
    Except String (ParserNode × PNState) := do
  let node : ParserNode := { word_count := high16 (wordAtD words wi), word_offset := wi,
                             op := op }
  match op with
      | .String => pure (node, { st with string_count := st.string_count + 1 })
      | .Source => do
        let w1 ← wordAt words (wi + 1)
        let w2 ← wordAt words (wi + 2)
        let st := { st with source_language := sourceLanguageFromU32 w1,
                            source_language_version := w2 }
        if node.word_count ≥ 4 then do
          let w3 ← wordAt words (wi + 3)
          pure (node, { st with source_file_id := w3 })
        else
          pure (node, st)
      | .EntryPoint => pure (node, { st with entry_point_count := st.entry_point_count + 1 })
      | .Name | .MemberName =>
        let member_offset : Nat := if op = .MemberName then 1 else 0
        pure ({ node with name := extractBytes words (wi + member_offset + 2) }, st)
      | .TypeStruct => do
        let w1 ← wordAt words (wi + 1)
        pure ({ node with member_count := w32sub node.word_count 2, result_id := w1,
                          is_type := true }, st)
      | .TypeVoid | .TypeBool | .TypeInt | .TypeFloat | .TypeVector | .TypeMatrix
      | .TypeSampler | .TypeOpaque | .TypeFunction | .TypeEvent | .TypeDeviceEvent
      | .TypeReserveId | .TypeQueue | .TypePipe | .TypeAccelerationStructureNV => do
        let w1 ← wordAt words (wi + 1)
        pure ({ node with result_id := w1, is_type := true }, st)
      | .TypeImage => do
        let w1 ← wordAt words (wi + 1)
        let w2 ← wordAt words (wi + 2)
        let w3 ← wordAt words (wi + 3)
        let w4 ← wordAt words (wi + 4)
        let w5 ← wordAt words (wi + 5)
        let w6 ← wordAt words (wi + 6)
        let w7 ← wordAt words (wi + 7)
        let w8 ← wordAt words (wi + 8)
        pure ({ node with result_id := w1,
                          image_traits := { sampled_type_id := w2, dim := dimFromU32 w3,
                                            depth := w4, arrayed := w5, ms := w6,
                                            sampled := w7,
                                            image_format := imageFormatFromU32 w8 },
                          is_type := true }, st)
      | .TypeSampledImage => do
        let w1 ← wordAt words (wi + 1)
        let w2 ← wordAt words (wi + 2)
        pure ({ node with result_id := w1, image_type_id := w2, is_type := true }, st)
      | .TypeArray => do
        let w1 ← wordAt words (wi + 1)
        let w2 ← wordAt words (wi + 2)
        let w3 ← wordAt words (wi + 3)
        pure ({ node with result_id := w1,
                          array_traits := { element_type_id := w2, length_id := w3 },
                          is_type := true }, st)
      | .TypeRuntimeArray => do
        let w1 ← wordAt words (wi + 1)
        let w2 ← wordAt words (wi + 2)
        pure ({ node with result_id := w1,
                          array_traits := { node.array_traits with element_type_id := w2 },
                          is_type := true }, st)
      | .TypePointer => do
        let w1 ← wordAt words (wi + 1)
        let w2 ← wordAt words (wi + 2)
        let w3 ← wordAt words (wi + 3)
        match StorageClass.from_u32 w2 with
        | some sc =>
          pure ({ node with result_id := w1, storage_class := sc, type_id := w3,
                            is_type := true }, st)
        | none => .error "Invalid SPIR-V storage class!"
      | .TypeForwardPointer => do
        let w1 ← wordAt words (wi + 1)
        let w2 ← wordAt words (wi + 2)
        match StorageClass.from_u32 w2 with
        | some sc =>
          pure ({ node with result_id := w1, storage_class := sc, is_type := true }, st)
        | none => .error "Invalid SPIR-V storage class!"
      | .ConstantTrue | .ConstantFalse | .Constant | .ConstantComposite
      | .ConstantSampler | .ConstantNull => do
        let w1 ← wordAt words (wi + 1)
        let w2 ← wordAt words (wi + 2)
        pure ({ node with result_type_id := w1, result_id := w2 }, st)
      | .Variable => do
        let w1 ← wordAt words (wi + 1)
        let w2 ← wordAt words (wi + 2)
        let w3 ← wordAt words (wi + 3)
        match StorageClass.from_u32 w3 with
        | some sc =>
          pure ({ node with type_id := w1, result_id := w2, storage_class := sc }, st)
        | none => .error "Invalid SPIR-V storage class!"
      | .Load => do
        let w1 ← wordAt words (wi + 1)
        let w2 ← wordAt words (wi + 2)
        pure ({ node with result_type_id := w1, result_id := w2 }, st)
      | .Function => do
        let w2 ← wordAt words (wi + 2)
        pure ({ node with result_id := w2 }, { st with function_node := st.nodes.length })
      | .Label =>
        if st.function_node ≠ USIZE_MAX then do
          let fnode := st.nodes.getD st.function_node default
          let w ← wordAt words (fnode.word_offset + 2)
          let nodes := st.nodes.set st.function_node { fnode with result_id := w }
          pure (node, { st with nodes := nodes, function_count := st.function_count + 1 })
        else
          pure (node, st)
      | .FunctionEnd => pure (node, { st with function_node := USIZE_MAX })
      | _ => pure (node, st)

/-- One iteration of the second (populate) loop of `Parser::parse_nodes`:
decode the opcode (an unassigned opcode number is fatal), extract the
opcode-specific fields, append the node, and bump `type_count` for type
nodes. -/
def scanInstruction (words : List Nat) (wi : Nat) (st : PNState) :
    Except String PNState := do
  match Op.from_u32 (low16 (wordAtD words wi)) with
  | none => .error ("Invalid SPIR-V op: " ++ toString (low16 (wordAtD words wi)))
  | some op => do
    let (node, st) ← scanNodeFields words wi op st
    let st := { st with nodes := st.nodes ++ [node] }
    let st := if node.is_type then { st with type_count := st.type_count + 1 } else st
    pure st

/-- The first (counting) loop of `Parser::parse_nodes`, fuel-indexed: `none`
means the Rust loop does not terminate (a zero `word_count` never advances
`word_index`). -/
def parseNodesCount (words : List Nat) : Nat → Nat → Nat → Option Nat
  | 0, _, _ => none
  | fuel + 1, wi, acc =>
    if wi < words.length then
      parseNodesCount words fuel (wi + high16 (wordAtD words wi)) (acc + 1)
    else some acc

/-- The second (populate) loop of `Parser::parse_nodes`, fuel-indexed. -/
def parseNodesLoop (words : List Nat) : Nat → Nat → PNState → Option (Except String PNState)
  | 0, _, _ => none
  | fuel + 1, wi, st =>
    if wi < words.length then
      match scanInstruction words wi st with
      | .error e => some (.error e)
      | .ok st' => parseNodesLoop words fuel (wi + high16 (wordAtD words wi)) st'
    else some (.ok st)

/-- The output of the node-scan stage: the node vector, the counters, and
the module's `OpSource` fields. -/
structure ParseNodesOut where
  nodes : List ParserNode := []
  string_count : Nat := 0
  type_count : Nat := 0
  entry_point_count : Nat := 0
  function_count : Nat := 0
  source_language : Option Nat := none
  source_language_version : Nat := 0
  source_file_id : Nat := 0
  deriving DecidableEq, Repr, Inhabited

/-- `Parser::parse_nodes`: count the instructions (fatal when zero), then
populate one node per instruction. The fuel `words.length + 1` is exact:
every productive iteration advances `word_index` by at least one, so `none`
is returned precisely when the Rust loop never terminates. -/
def parse_nodes (words : List Nat) : Option (Except String ParseNodesOut) :=
  match parseNodesCount words (words.length + 1) STARTING_WORD 0 with
  | none => none
  | some node_count =>
    if node_count = 0 then some (.error "No nodes found in SPIR-V binary, invalid!")
    else
      match parseNodesLoop words (words.length + 1) STARTING_WORD {} with
      | none => none
      | some (.error e) => some (.error e)
      | some (.ok st) =>
        some (.ok { nodes := st.nodes, string_count := st.string_count,
                    type_count := st.type_count,
                    entry_point_count := st.entry_point_count,
                    function_count := st.function_count,
                    source_language := st.source_language,
                    source_language_version := st.source_language_version,
                    source_file_id := st.source_file_id })

/-- `parser.rs` `ParserFunctionCallee`. -/
structure ParserFunctionCallee where
  callee : Nat := 0
  function : Nat := 0
  deriving DecidableEq, Repr, Inhabited

/-- `parser.rs` `ParserFunction`. -/
structure ParserFunction where
  id : Nat := 0
  callees : List ParserFunctionCallee := []
  accessed : List Nat := []
  deriving DecidableEq, Repr, Inhabited

/-- Helper for `dedupConsec`: drop elements equal to the previous one. -/
def dedupAfter {α : Type} [DecidableEq α] (prev : α) : List α → List α
  | [] => []
  | b :: rest => if prev = b then dedupAfter prev rest else b :: dedupAfter b rest

/-- `Vec::dedup`: remove consecutive duplicate elements, keeping the first
of each run. -/
def dedupConsec {α : Type} [DecidableEq α] : List α → List α
  | [] => []
  | a :: rest => a :: dedupAfter a rest

/-- The u32 comparator `a.callee.cmp(&b.callee)` used to sort a function's
callees. -/
def calleeLe (a b : ParserFunctionCallee) : Prop := a.callee ≤ b.callee

instance : DecidableRel calleeLe :=
  fun a b => inferInstanceAs (Decidable (a.callee ≤ b.callee))

instance : IsTotal ParserFunctionCallee calleeLe := ⟨fun a b => Nat.le_total a.callee b.callee⟩

instance : IsTrans ParserFunctionCallee calleeLe := ⟨fun _ _ _ => Nat.le_trans⟩

/-- The `a.id as i32` comparator used by `parse_functions` to sort the
function table. -/
def fnIdLe (a b : ParserFunction) : Prop := toI32 a.id ≤ toI32 b.id

instance : DecidableRel fnIdLe :=
  fun a b => inferInstanceAs (Decidable (toI32 a.id ≤ toI32 b.id))

instance : IsTotal ParserFunction fnIdLe := ⟨fun a b => Int.le_total (toI32 a.id) (toI32 b.id)⟩

instance : IsTrans ParserFunction fnIdLe := ⟨fun _ _ _ => Int.le_trans⟩

/-- One iteration of the body loops of `Parser::parse_function` (both the
count and the fill sub-pass share this control flow). The guard is
transcribed exactly as in the source: `if node_op != Op::FunctionEnd
{ continue; }` precedes a match whose arms expect the call/access opcodes,
so the arms below are unreachable. -/
def parse_function_step (words : List Nat) (nodes : List ParserNode) (f : ParserFunction)
    (i : Nat) : ParserFunction :=
  let node := nodes.getD i default
  if node.op ≠ Op.FunctionEnd then f
  else
    let word_offset := node.word_offset
    match node.op with
    | .FunctionCall =>
      { f with callees :=
          f.callees ++ [{ callee := wordAtD words (word_offset + 3), function := USIZE_MAX }] }
    | .Load | .AccessChain | .InBoundsAccessChain | .PtrAccessChain | .ArrayLength
    | .GenericPtrMemSemantics | .InBoundsPtrAccessChain =>
      { f with accessed := f.accessed ++ [wordAtD words (word_offset + 3)] }
    | .Store =>
      { f with accessed := f.accessed ++ [wordAtD words (word_offset + 2)] }
    | .CopyMemory | .CopyMemorySized =>
      { f with accessed :=
          f.accessed ++ [wordAtD words (word_offset + 2), wordAtD words (word_offset + 3)] }
    | _ => f

/-- `Parser::parse_function`: build the function record for the definition
starting at node `function_node_index` whose first label is at
`first_label_index`, then sort and deduplicate `callees` and `accessed`.
(The count sub-pass only sizes `Vec::reserve` calls and has no observable
effect, so it is not materialised separately.) -/
def parse_function (words : List Nat) (nodes : List ParserNode)
    (function_node_index first_label_index : Nat) : ParserFunction :=
  let f0 : ParserFunction :=
    { id := (nodes.getD function_node_index default).result_id, callees := [], accessed := [] }
  let f := (List.range' first_label_index (nodes.length - first_label_index)).foldl
    (parse_function_step words nodes) f0
  { f with callees := dedupConsec (List.insertionSort calleeLe f.callees),
           accessed := dedupConsec (List.insertionSort (· ≤ ·) f.accessed) }

/-- Iteration core of `findDefinitionLabel`; the counter is exactly
`nodes.length - i`, so the zero case coincides with walking off the end. -/
def findDefinitionLabelGo (nodes : List ParserNode) : Nat → Nat → Option Nat
  | 0, _ => none
  | counter + 1, i =>
    if i < nodes.length then
      let op := (nodes.getD i default).op
      if op = Op.Label then some i
      else if op = Op.FunctionEnd then none
      else findDefinitionLabelGo nodes counter (i + 1)
    else none

/-- The inner scan of `Parser::parse_functions` looking for the first
`OpLabel` (a definition) before an `OpFunctionEnd` (a bare declaration). -/
def findDefinitionLabel (nodes : List ParserNode) (i : Nat) : Option Nat :=
  findDefinitionLabelGo nodes (nodes.length - i) i

/-- Iteration core of `resolveCalleeCursor`; the counter is exactly
`functions.length - cursor`, so the zero case coincides with the indexing
panic. -/
def resolveCalleeGo (functions : List ParserFunction) (function_count callee_id : Nat) :
    Nat → Nat → Except String Nat
  | 0, _ => .error "panic: index out of bounds"
  | counter + 1, cursor =>
    if cursor < functions.length then
      if (functions.getD cursor default).id = callee_id then .ok cursor
      else if cursor + 1 ≥ function_count then .error "Invalid SPIR-V ID reference"
      else resolveCalleeGo functions function_count callee_id counter (cursor + 1)
    else .error "panic: index out of bounds"

/-- The callee-resolution scan of `Parser::parse_functions`: advance the
cursor over the sorted function table until the id matches; walking past
`function_count` is fatal, indexing past the table panics. -/
def resolveCalleeCursor (functions : List ParserFunction) (function_count callee_id cursor : Nat) :
    Except String Nat :=
  resolveCalleeGo functions function_count callee_id (functions.length - cursor) cursor

/-- Resolve the callee indices of one function; the cursor persists across
that function's callees (`let mut callee_function = 0;` per function). -/
def resolveFunctionCallees (functions : List ParserFunction) (function_count : Nat)
    (f : ParserFunction) : Except String ParserFunction :=
  if f.callees.length > 0 then do
    let (callees, _) ← f.callees.foldlM
      (fun (acc : List ParserFunctionCallee × Nat) c => do
        let idx ← resolveCalleeCursor functions function_count c.callee acc.2
        pure (acc.1 ++ [{ c with function := idx }], idx))
      (([], 0) : List ParserFunctionCallee × Nat)
    pure { f with callees := callees }
  else pure f

/-- `Parser::parse_functions`: collect a record per defined function, sort
the table by id (as `i32`), and resolve the callee indices. -/
def parse_functions (words : List Nat) (nodes : List ParserNode) (function_count : Nat) :
    Except String (List ParserFunction) := do
  let fns := (List.range nodes.length).foldl
    (fun acc i =>
      if (nodes.getD i default).op = Op.Function then
        match findDefinitionLabel nodes i with
        | some j => acc ++ [parse_function words nodes i j]
        | none => acc
      else acc)
    []
  let sorted := List.insertionSort fnIdLe fns
  sorted.mapM (resolveFunctionCallees sorted function_count)

/-- `Parser::traverse_call_graph`, fuel-indexed. The Rust recursion is
bounded because `depth` grows by one per level and any depth beyond the
function count errors out, so with per-level fuel
`functions.length + 2 - depth` the fuel-exhaustion branch is unreachable. -/
def traverseFuel (functions : List ParserFunction) :
    Nat → Nat → List Nat → Nat → Except String (List Nat)
  | 0, _, _, _ => .error "panic: fuel exhausted"
  | fuel + 1, function_index, acc, depth =>
    if depth > functions.length then
      .error "Entry point call graph must not contain cycles"
    else
      let f := functions.getD function_index default
      f.callees.foldlM (fun a c => traverseFuel functions fuel c.function a (depth + 1))
        (acc ++ [f.id])

/-- `Parser::traverse_call_graph` with its unreachable-fuel budget. -/
def traverse_call_graph (functions : List ParserFunction) (function_index : Nat)
    (acc : List Nat) (depth : Nat) : Except String (List Nat) :=
  traverseFuel functions (functions.length + 2 - depth) function_index acc depth

/-- `types.rs` `ReflectStorageClass` (vocabulary type of the crate; the
variants are those named in `parser.rs`). -/
inductive ReflectStorageClass where
  | Undefined
  | UniformConstant
  | Input
  | Uniform
  | Output
  | Workgroup
  | CrossWorkgroup
  | Private
  | Function
  | Generic
  | PushConstant
  | AtomicCounter
  | Image
  | StorageBuffer
  deriving DecidableEq, Repr, Inhabited

/-- `types.rs` `ReflectDescriptorType`. -/
inductive ReflectDescriptorType where
  | Undefined
  | Sampler
  | CombinedImageSampler
  | SampledImage
  | StorageImage
  | UniformTexelBuffer
  | StorageTexelBuffer
  | UniformBuffer
  | StorageBuffer
  | UniformBufferDynamic
  | StorageBufferDynamic
  | InputAttachment
  deriving DecidableEq, Repr, Inhabited

/-- Modelled from the spec: the `ReflectTypeFlags` bitset (`types.rs` is not
under `src/`); the spec lists the flag names
(VOID|BOOL|INT|FLOAT|VECTOR|MATRIX|ARRAY|STRUCT|EXTERNAL_*). The claims
below depend only on the bits being distinct and on the mask compositions,
not on the numeric values. -/
def TYPE_FLAG_VOID : Nat := 1
def TYPE_FLAG_BOOL : Nat := 2
def TYPE_FLAG_INT : Nat := 4
def TYPE_FLAG_FLOAT : Nat := 8
def TYPE_FLAG_VECTOR : Nat := 256
def TYPE_FLAG_MATRIX : Nat := 512
def TYPE_FLAG_EXTERNAL_IMAGE : Nat := 65536
def TYPE_FLAG_EXTERNAL_SAMPLER : Nat := 131072
def TYPE_FLAG_EXTERNAL_SAMPLED_IMAGE : Nat := 262144
def TYPE_FLAG_EXTERNAL_BLOCK : Nat := 524288
def TYPE_FLAG_EXTERNAL_MASK : Nat := 983040
def TYPE_FLAG_SAMPLED_MASK : Nat := TYPE_FLAG_EXTERNAL_IMAGE + TYPE_FLAG_EXTERNAL_SAMPLED_IMAGE
def TYPE_FLAG_STRUCT : Nat := 268435456
def TYPE_FLAG_ARRAY : Nat := 536870912

/-- Modelled from the spec: the `ReflectDecorationFlags` bitset, in the
order `Parser::apply_decorations` folds them. -/
def DECORATION_FLAG_BLOCK : Nat := 1
def DECORATION_FLAG_BUFFER_BLOCK : Nat := 2
def DECORATION_FLAG_ROW_MAJOR : Nat := 4
def DECORATION_FLAG_COLUMN_MAJOR : Nat := 8
def DECORATION_FLAG_BUILT_IN : Nat := 16
def DECORATION_FLAG_NO_PERSPECTIVE : Nat := 32
def DECORATION_FLAG_FLAT : Nat := 64
def DECORATION_FLAG_NON_WRITABLE : Nat := 128

/-- `bitflags::contains`: all bits of `f` are set in `x`. -/
def hasFlag (x f : Nat) : Bool := x &&& f == f

/-- Modelled from the spec: the `ReflectResourceTypeFlags` (D3D view kind)
bitset. -/
def RESOURCE_FLAG_UNDEFINED : Nat := 0
def RESOURCE_FLAG_SAMPLER : Nat := 1
def RESOURCE_FLAG_CONSTANT_BUFFER_VIEW : Nat := 2
def RESOURCE_FLAG_SHADER_RESOURCE_VIEW : Nat := 4
def RESOURCE_FLAG_UNORDERED_ACCESS_VIEW : Nat := 8

/-- `types.rs` numeric traits: scalar width/signedness. -/
structure ReflectNumericTraitsScalar where
  width : Nat := 0
  signedness : Nat := 0
  deriving DecidableEq, Repr, Inhabited

/-- `types.rs` numeric traits: vector component count. -/
structure ReflectNumericTraitsVector where
  component_count : Nat := 0
  deriving DecidableEq, Repr, Inhabited

/-- `types.rs` numeric traits: matrix shape and stride. -/
structure ReflectNumericTraitsMatrix where
  column_count : Nat := 0
  row_count : Nat := 0
  stride : Nat := 0
  deriving DecidableEq, Repr, Inhabited

/-- `types.rs` numeric traits. -/
structure ReflectNumericTraits where
  scalar : ReflectNumericTraitsScalar := {}
  vector : ReflectNumericTraitsVector := {}
  matrix : ReflectNumericTraitsMatrix := {}
  deriving DecidableEq, Repr, Inhabited

/-- `types.rs` image traits (dimension and format kept as raw numbers). -/
structure ReflectImageTraits where
  dim : Option Nat := none
  depth : Nat := 0
  arrayed : Nat := 0
  ms : Nat := 0
  sampled : Nat := 0
  image_format : Option Nat := none
  deriving DecidableEq, Repr, Inhabited

/-- `types.rs` array traits. -/
structure ReflectArrayTraits where
  dims : List Nat := []
  stride : Nat := 0
  deriving DecidableEq, Repr, Inhabited

/-- `types.rs` `ReflectTypeDescription` (the recursive type record; unset
`id` is the `u32::MAX` sentinel). -/
structure ReflectTypeDescription where
  id : Nat := UMAX
  op : Op := .Undef
  type_name : List Nat := []
  struct_member_name : List Nat := []
  storage_class : ReflectStorageClass := .Undefined
  type_flags : Nat := 0
  decoration_flags : Nat := 0
  traits_numeric : ReflectNumericTraits := {}
  traits_image : ReflectImageTraits := {}
  traits_array : ReflectArrayTraits := {}
  members : List ReflectTypeDescription

instance : Inhabited ReflectTypeDescription :=
  ⟨⟨UMAX, .Undef, [], [], .Undefined, 0, 0, {}, {}, {}, []⟩⟩

/-- `types.rs` `ReflectBlockVariable` (the recursive block-member record). -/
structure ReflectBlockVariable where
  spirv_id : Nat := 0
  name : List Nat := []
  offset : Nat := 0
  absolute_offset : Nat := 0
  size : Nat := 0
  padded_size : Nat := 0
  decoration_flags : Nat := 0
  numeric : ReflectNumericTraits := {}
  array : ReflectArrayTraits := {}
  members : List ReflectBlockVariable
  type_description : ReflectTypeDescription := default

instance : Inhabited ReflectBlockVariable :=
  ⟨⟨0, [], 0, 0, 0, 0, 0, {}, {}, [], default⟩⟩

/-- `types.rs` `ReflectDescriptorBinding` (the `word_offset` pair is split
into its two components). -/
structure ReflectDescriptorBinding where
  spirv_id : Nat := 0
  name : List Nat := []
  descriptor_type : ReflectDescriptorType := .Undefined
  resource_type : Nat := RESOURCE_FLAG_UNDEFINED
  binding : Nat := UMAX
  set : Nat := UMAX
  input_attachment_index : Nat := UMAX
  count : Nat := 0
  accessed : Bool := false
  uav_counter_id : Nat := UMAX
  uav_counter_index : Nat := USIZE_MAX
  type_index : Option Nat := none
  word_offset_binding : Nat := 0
  word_offset_set : Nat := 0
  image : ReflectImageTraits := {}
  array_dims : List Nat := []
  block : ReflectBlockVariable := default

instance : Inhabited ReflectDescriptorBinding := ⟨{}⟩

/-- Modelled from the spec: `ShaderModule::find_type` lives in the module
container (not under `src/`); per the spec, type cross-references resolve
through the module's type table, so this is the index of the first type
description whose `id` matches. -/
def find_type (types : List ReflectTypeDescription) (type_id : Nat) : Option Nat :=
  types.findIdx? (fun t => t.id == type_id)

/-- The selection filter of `Parser::parse_descriptor_bindings`: an
`OpVariable` node (the storage-class test is commented out in the source)
whose set and binding decorations are both assigned (≠ `u32::MAX`). -/
def descriptorQualifies (n : ParserNode) : Bool :=
  n.op == Op.Variable &&
    !(n.decorations.set.value == UMAX || n.decorations.binding.value == UMAX)

/-- The pointer hop of `Parser::parse_descriptor_bindings`: find the
pointer type's node, then the type index of its pointee; the tentative
descriptor type `dt` (already derived from the storage class) rides along. -/
def resolvePointee (nodes : List ParserNode) (types : List ReflectTypeDescription)
    (t0 : ReflectTypeDescription) (dt : ReflectDescriptorType) :
    Except String (ReflectDescriptorType × Nat) :=
  match find_node nodes t0.id with
  | none => .error "Invalid SPIR-V ID reference"
  | some type_node_index =>
    let type_node := nodes.getD type_node_index default
    match find_type types type_node.type_id with
    | none => .error "Invalid SPIR-V ID reference"
    | some pointer_type_index => .ok (dt, pointer_type_index)

/-- The per-variable body of `Parser::parse_descriptor_bindings`: resolve
the variable's type (one pointer hop, recording a tentative descriptor type
from the pointer's storage class; the `todo!` on other storage classes is a
panic), compute `count` as the u32 product of the resolved type's array
dims, and assemble the binding record. -/
def buildDescriptorBinding (nodes : List ParserNode) (types : List ReflectTypeDescription)
    (node : ParserNode) : Except String ReflectDescriptorBinding :=
  match find_type types node.type_id with
  | none => .error "Invalid SPIR-V ID reference"
  | some type_index =>
    let t0 := types.getD type_index default
    let resolved : Except String (ReflectDescriptorType × Nat) :=
      if t0.op = Op.TypePointer then
        match t0.storage_class with
        | .Uniform | .UniformConstant =>
          resolvePointee nodes types t0 ReflectDescriptorType.UniformBuffer
        | .StorageBuffer => resolvePointee nodes types t0 ReflectDescriptorType.StorageBuffer
        | _ => .error "panic: todo! unhandled pointer storage class"
      else .ok (ReflectDescriptorType.Undefined, type_index)
    match resolved with
    | .error e => .error e
    | .ok (descriptor_type, resolved_type_index) =>
    let type_description := types.getD resolved_type_index default
    let count := type_description.traits_array.dims.foldl w32mul 1
    let is_sampled_image := hasFlag type_description.type_flags TYPE_FLAG_SAMPLED_MASK
    let is_external_image :=
      type_description.type_flags &&& TYPE_FLAG_EXTERNAL_MASK == TYPE_FLAG_EXTERNAL_IMAGE
    .ok { spirv_id := node.result_id,
           word_offset_binding := node.decorations.binding.word_offset,
           word_offset_set := node.decorations.set.word_offset,
           name := node.name,
           descriptor_type := descriptor_type,
           binding := node.decorations.binding.value,
           input_attachment_index := node.decorations.input_attachment_index.value,
           set := node.decorations.set.value,
           count := count,
           accessed := false,
           uav_counter_id := node.decorations.uav_counter_buffer.value,
           uav_counter_index := USIZE_MAX,
           type_index := some resolved_type_index,
           resource_type := RESOURCE_FLAG_UNDEFINED,
           block := default,
           image := if is_external_image || is_sampled_image then type_description.traits_image
             else {},
           array_dims := type_description.traits_array.dims }

/-- The push loop over the selected binding nodes. -/
def buildAllBindings (nodes : List ParserNode) (types : List ReflectTypeDescription) :
    List ParserNode → Except String (List ReflectDescriptorBinding)
  | [] => .ok []
  | n :: rest => do
    let b ← buildDescriptorBinding nodes types n
    let bs ← buildAllBindings nodes types rest
    pure (b :: bs)

/-- The final comparator of `Parser::parse_descriptor_bindings`:
`Ord::cmp(&a_binding, &b_binding).then(Ord::cmp(&a_spirv_id, &b_spirv_id))`
where both keys are the u32 fields cast `as i32`. -/
def bindingLe (a b : ReflectDescriptorBinding) : Prop :=
  toI32 a.binding < toI32 b.binding ∨
    (toI32 a.binding = toI32 b.binding ∧ toI32 a.spirv_id ≤ toI32 b.spirv_id)

instance : DecidableRel bindingLe := fun a b =>
  inferInstanceAs (Decidable (toI32 a.binding < toI32 b.binding ∨
    (toI32 a.binding = toI32 b.binding ∧ toI32 a.spirv_id ≤ toI32 b.spirv_id)))

instance : IsTotal ReflectDescriptorBinding bindingLe :=
  ⟨fun a b => by
    unfold bindingLe
    rcases Int.lt_trichotomy (toI32 a.binding) (toI32 b.binding) with h | h | h
    · exact Or.inl (Or.inl h)
    · rcases Int.le_total (toI32 a.spirv_id) (toI32 b.spirv_id) with h2 | h2
      · exact Or.inl (Or.inr ⟨h, h2⟩)
      · exact Or.inr (Or.inr ⟨h.symm, h2⟩)
    · exact Or.inr (Or.inl h)⟩

instance : IsTrans ReflectDescriptorBinding bindingLe :=
  ⟨fun a b c hab hbc => by
    unfold bindingLe at *
    rcases hab with h1 | ⟨h1, h1'⟩ <;> rcases hbc with h2 | ⟨h2, h2'⟩
    · exact Or.inl (h1.trans h2)
    · exact Or.inl (lt_of_lt_of_eq h1 h2)
    · exact Or.inl (lt_of_eq_of_lt h1 h2)
    · exact Or.inr ⟨h1.trans h2, h1'.trans h2'⟩⟩

/-- `Parser::parse_descriptor_bindings`: select the qualifying `OpVariable`
nodes, build one binding per node, and sort by `(binding, spirv_id)` as
`i32` keys. (The source skips the sort when no node qualifies; the result
is the same since sorting the empty list is the identity. Rust's stable
`sort_by` is embedded as a stable insertion sort over the same total
preorder.) -/
def parse_descriptor_bindings (nodes : List ParserNode)
    (types : List ReflectTypeDescription) :
    Except String (List ReflectDescriptorBinding) := do
  let binding_nodes := nodes.filter descriptorQualifies
  let bindings ← buildAllBindings nodes types binding_nodes
  pure (List.insertionSort bindingLe bindings)

/-- Nesting depth of a block-variable tree; the recursion measure for the
block-size pass (scalar-field updates leave it unchanged). -/
def bvDepth (v : ReflectBlockVariable) : Nat :=
  1 + (v.members.attach.map (fun mp => bvDepth mp.1)).foldl max 0
termination_by sizeOf v
decreasing_by
  have h1 : sizeOf mp.1 < sizeOf v.members := List.sizeOf_lt_of_mem mp.2
  have h2 : sizeOf v.members ≤ sizeOf v := by
    cases v
    simp only [ReflectBlockVariable.mk.sizeOf_spec]
    omega
  omega

/-- The absolute-offset loop of
`Parser::parse_descriptor_block_variable_sizes`: root members use their own
offset, array-of-structs elements use 0, nested members add the parent's
absolute offset. -/
def blockAbsOffsets (is_parent_root is_parent_aos : Bool) (v : ReflectBlockVariable) :
    List ReflectBlockVariable :=
  v.members.map (fun m =>
    { m with absolute_offset :=
        if is_parent_root then m.offset
        else if is_parent_aos then 0
        else w32add m.offset v.absolute_offset })

/-- The `[0 .. n-1)` padding iteration: pad up to the next member's offset,
clamp `size`, and under runtime-array ancestry force `padded_size = size`. -/
def blockPadMid (is_parent_rta : Bool) (m : ReflectBlockVariable) (next_offset : Nat) :
    ReflectBlockVariable :=
  let padded := w32sub next_offset m.offset
  let size := if m.size > padded then padded else m.size
  let padded := if is_parent_rta then size else padded
  { m with padded_size := padded, size := size }

/-- The last-member padding: round `offset + size` up to the 16-byte SPIR-V
data alignment, clamp, and apply the runtime-array override. -/
def blockPadLast (is_parent_rta : Bool) (m : ReflectBlockVariable) : ReflectBlockVariable :=
  let padded := w32sub (alignDown16 (w32add (w32add m.offset m.size) 15)) m.offset
  let size := if m.size > padded then padded else m.size
  let padded := if is_parent_rta then size else padded
  { m with padded_size := padded, size := size }

/-- The padding pass over a member list (the source's index loop plus its
separate last-member block). -/
def blockPadMembers (is_parent_rta : Bool) (ms : List ReflectBlockVariable) :
    List ReflectBlockVariable :=
  List.ofFn (fun i : Fin ms.length =>
    if h : i.val + 1 < ms.length then
      blockPadMid is_parent_rta (ms.get i) (ms.get ⟨i.val + 1, h⟩).offset
    else blockPadLast is_parent_rta (ms.get i))

/-- Depth is insensitive to the scalar-field updates performed by the size
pass. -/
theorem bvDepth_absOffset (m : ReflectBlockVariable) (x : Nat) :
    bvDepth { m with absolute_offset := x } = bvDepth m := by
  cases m
  rw [bvDepth, bvDepth]

/-- Auxiliary: the initial accumulator is below a `foldl max`. -/
theorem foldl_max_init_le (l : List Nat) (a : Nat) : a ≤ l.foldl max a := by
  induction l generalizing a with
  | nil => exact le_rfl
  | cons b t ih => exact le_trans (Nat.le_max_left a b) (ih (max a b))

/-- Auxiliary: every element is below a `foldl max`. -/
theorem le_foldl_max {x : Nat} {l : List Nat} (h : x ∈ l) (a : Nat) : x ≤ l.foldl max a := by
  induction l generalizing a with
  | nil => cases h
  | cons b t ih =>
    rcases List.mem_cons.1 h with rfl | h2
    · exact le_trans (Nat.le_max_right a x) (foldl_max_init_le t (max a x))
    · exact ih h2 (max a b)

/-- A member is strictly shallower than its parent. -/
theorem bvDepth_lt_of_mem {m v : ReflectBlockVariable} (h : m ∈ v.members) :
    bvDepth m < bvDepth v := by
  conv_rhs => rw [bvDepth]
  have hmem : bvDepth m ∈ v.members.attach.map (fun mp => bvDepth mp.1) :=
    List.mem_map.2 ⟨⟨m, h⟩, List.mem_attach _ _, rfl⟩
  have := le_foldl_max hmem 0
  omega

mutual

/-- The per-member work of the absolute-offset and size loops of
`Parser::parse_descriptor_block_variable_sizes` (the source's two separate
loops are fused; this is observationally equal because the size computation
of a member reads only that member's own fields). `parent_abs` is the
enclosing variable's `absolute_offset`. Sizes recurse into struct,
array-of-struct and runtime-array-of-struct members. -/
def sizeOneMember (is_parent_root is_parent_aos is_parent_rta : Bool) (parent_abs : Nat)
    (m0 : ReflectBlockVariable) : ReflectBlockVariable :=
  let m := { m0 with absolute_offset :=
    (if is_parent_root then m0.offset
     else if is_parent_aos then 0
     else w32add m0.offset parent_abs) }
  match m.type_description.op with
  | Op.TypeBool => { m with size := SPIRV_WORD_SIZE }
  | Op.TypeInt | Op.TypeFloat =>
    { m with size := m.type_description.traits_numeric.scalar.width / SPIRV_BYTE_WIDTH }
  | Op.TypeVector =>
    { m with size := (w32mul m.type_description.traits_numeric.vector.component_count
        (m.type_description.traits_numeric.scalar.width / SPIRV_BYTE_WIDTH)) }
  | Op.TypeMatrix =>
    if hasFlag m.decoration_flags DECORATION_FLAG_COLUMN_MAJOR then
      { m with size := (w32mul m.type_description.traits_numeric.matrix.column_count
          m.numeric.matrix.stride) }
    else if hasFlag m.decoration_flags DECORATION_FLAG_ROW_MAJOR then
      { m with size := (w32mul m.type_description.traits_numeric.matrix.row_count
          m.numeric.matrix.stride) }
    else m
  | Op.TypeArray =>
    let m :=
      if hasFlag m.type_description.type_flags TYPE_FLAG_STRUCT then
        parse_descriptor_block_variable_sizes false true is_parent_rta m
      else m
    { m with size := (w32mul
        (if m.array.dims.length > 0 then m.array.dims.foldl w32mul 1 else 0)
        m.array.stride) }
  | Op.TypeRuntimeArray =>
    if hasFlag m.type_description.type_flags TYPE_FLAG_STRUCT then
      parse_descriptor_block_variable_sizes false true true m
    else m
  | Op.TypeStruct =>
    parse_descriptor_block_variable_sizes false is_parent_aos is_parent_rta m
  | _ => m
termination_by (bvDepth m0, 2)
decreasing_by
  all_goals
    rw [bvDepth_absOffset]
    apply Prod.Lex.right
    omega

/-- The sized member list of a variable: the two member loops applied to
each member. -/
def blockSizedMembers (is_parent_root is_parent_aos is_parent_rta : Bool)
    (v : ReflectBlockVariable) : List ReflectBlockVariable :=
  v.members.attach.map (fun mp =>
    sizeOneMember is_parent_root is_parent_aos is_parent_rta v.absolute_offset mp.1)
termination_by (bvDepth v, 0)
decreasing_by
  apply Prod.Lex.left
  exact bvDepth_lt_of_mem mp.2

/-- `Parser::parse_descriptor_block_variable_sizes`: compute the members'
absolute offsets and sizes, run the padding pass, and set the block's
`size` and `padded_size` to `last.offset + last.padded_size`. Nothing
happens when the member list is empty. -/
def parse_descriptor_block_variable_sizes (is_parent_root is_parent_aos is_parent_rta : Bool)
    (v : ReflectBlockVariable) : ReflectBlockVariable :=
  if v.members.length = 0 then v
  else
    let padded := blockPadMembers is_parent_rta
      (blockSizedMembers is_parent_root is_parent_aos is_parent_rta v)
    let last := padded.getD (padded.length - 1) default
    let last_size := w32add last.offset last.padded_size
    { v with members := padded, size := last_size, padded_size := last_size }
termination_by (bvDepth v, 1)
decreasing_by
  apply Prod.Lex.right
  omega

end

/-- The per-block tail of `Parser::parse_descriptor_blocks` (lines
1710-1722): the runtime-array context flag is `descriptor_type ==
StorageBuffer`, the size pass runs with `is_parent_root = true`, and then
every storage-buffer block has its `size` and `padded_size` forced to 0. -/
def descriptorBlockSizePass (descriptor_type : ReflectDescriptorType)
    (block : ReflectBlockVariable) : ReflectBlockVariable :=
  let is_parent_rta := descriptor_type = ReflectDescriptorType.StorageBuffer
  let block := parse_descriptor_block_variable_sizes true false is_parent_rta block
  if is_parent_rta then { block with size := 0, padded_size := 0 } else block

mutual

/-- Whether a runtime array occurs anywhere in a type description (property
used to state the C4 claim's "contains no runtime array"). -/
def rtaInType (t : ReflectTypeDescription) : Bool :=
  t.op == Op.TypeRuntimeArray || rtaInTypeList t.members
termination_by sizeOf t
decreasing_by
  cases t
  simp only [ReflectTypeDescription.mk.sizeOf_spec]
  omega

/-- `rtaInType` over a member list. -/
def rtaInTypeList : List ReflectTypeDescription → Bool
  | [] => false
  | t :: ts => rtaInType t || rtaInTypeList ts
termination_by l => sizeOf l
decreasing_by
  all_goals simp only [List.cons.sizeOf_spec]
  all_goals omega

end

mutual

/-- Whether a runtime array occurs anywhere in a block-variable tree (its
own type, any member's tree, or any member's type description). -/
def containsRuntimeArray (v : ReflectBlockVariable) : Bool :=
  rtaInType v.type_description || containsRuntimeArrayList v.members
termination_by sizeOf v
decreasing_by
  cases v
  simp only [ReflectBlockVariable.mk.sizeOf_spec]
  omega

/-- `containsRuntimeArray` over a member list. -/
def containsRuntimeArrayList : List ReflectBlockVariable → Bool
  | [] => false
  | v :: vs => containsRuntimeArray v || containsRuntimeArrayList vs
termination_by l => sizeOf l
decreasing_by
  all_goals simp only [List.cons.sizeOf_spec]
  all_goals omega

end

/-- The array-descent loop of `Parser::parse_descriptor_block_variable`
(lines 1425-1434), fuel-indexed. Transcribed exactly as in the source: the
`while` condition tests `type_node_index`, which the body never updates —
only `resolved_node_index` is reassigned. `none` means the fuel ran out,
i.e. the Rust loop is still spinning. -/
def descendArrayLoopFuel (nodes : List ParserNode) (type_node_index : Nat) :
    Nat → Nat → Option (Except String Nat)
  | 0, _ => none
  | fuel + 1, resolved_node_index =>
    if (nodes.getD type_node_index default).op = Op.TypeArray then
      match find_node nodes (nodes.getD type_node_index default).array_traits.element_type_id with
      | some test_type_node_index =>
        descendArrayLoopFuel nodes type_node_index fuel test_type_node_index
      | none => some (.error "Invalid SPIR-V ID reference")
    else some (.ok resolved_node_index)

/-- `types.rs` `ReflectGenerator`. -/
inductive ReflectGenerator where
  | Unknown
  | KhronosLlvmSpirvTranslator
  | KhronosSpirvToolsAssembler
  | KhronosGlslangReferenceFrontEnd
  | GoogleShadercOverGlslang
  | GoogleSpiregg
  | GoogleRspirv
  | XLegendMesaMesairSpirvTranslator
  | KhronosSpirvToolsLinker
  | WineVkd3dShaderCompiler
  | ClayClayShaderCompiler
  deriving DecidableEq, Repr, Inhabited

/-- The generator derivation in `Parser::parse` (lines 177-190): the upper
16 bits of header word 2 mapped to the enumerated generator list, `Unknown`
otherwise. In the source the result is bound to the deliberately unused
local `let _generator = ...` and is never written to the `ShaderModule`. -/
def parse_generator (word2 : Nat) : ReflectGenerator :=
  match high16 word2 with
  | 6 => .KhronosLlvmSpirvTranslator
  | 7 => .KhronosSpirvToolsAssembler
  | 8 => .KhronosGlslangReferenceFrontEnd
  | 13 => .GoogleShadercOverGlslang
  | 14 => .GoogleSpiregg
  | 15 => .GoogleRspirv
  | 16 => .XLegendMesaMesairSpirvTranslator
  | 17 => .KhronosSpirvToolsLinker
  | 18 => .WineVkd3dShaderCompiler
  | 19 => .ClayClayShaderCompiler
  | _ => .Unknown

/-- `types.rs` `ReflectShaderStage`. -/
inductive ReflectShaderStage where
  | Undefined
  | Vertex
  | TessellationControl
  | TessellationEvaluation
  | Geometry
  | Fragment
  | Compute
  | Kernel
  | TaskNV
  | MeshNV
  | RayGenerationNV
  | IntersectionNV
  | AnyHitNV
  | ClosestHitNV
  | MissNV
  | CallableNV
  deriving DecidableEq, Repr, Inhabited

/-- Modelled from the spec: `ReflectInterfaceVariable` (defined in the
crate's `types/variable.rs`, not under `src/`). The entry-point mirror step
copies these records wholesale, so only a representative subset of fields
is carried. -/
structure ReflectInterfaceVariable where
  spirv_id : Nat := 0
  name : List Nat := []
  location : Nat := UMAX
  storage_class : ReflectStorageClass := .Undefined
  word_offset : Nat := 0
  deriving DecidableEq, Repr, Inhabited

/-- `types/variable.rs` `ReflectEntryPoint` (fields per the spec's
EntryPoint record; descriptor sets reduced to their set numbers). -/
structure ReflectEntryPoint where
  name : List Nat := []
  id : Nat := 0
  spirv_execution_model : Option Nat := none
  shader_stage : ReflectShaderStage := .Undefined
  input_variables : List ReflectInterfaceVariable := []
  output_variables : List ReflectInterfaceVariable := []
  descriptor_sets : List Nat := []
  used_uniforms : List Nat := []
  used_push_constants : List Nat := []
  deriving DecidableEq, Repr, Inhabited

/-- The `ShaderModule` fields involved in `Parser::parse`'s final
entry-point mirror step, plus the surrounding module outputs. -/
structure ShaderModuleInternal where
  entry_points : List ReflectEntryPoint := []
  entry_point_name : List Nat := []
  entry_point_id : Nat := 0
  spirv_execution_model : Option Nat := none
  shader_stage : ReflectShaderStage := .Undefined
  input_variables : List ReflectInterfaceVariable := []
  output_variables : List ReflectInterfaceVariable := []
  descriptor_bindings : List ReflectDescriptorBinding := []
  source_language : Option Nat := none
  source_language_version : Nat := 0
  source_file_id : Nat := 0

instance : Inhabited ShaderModuleInternal := ⟨{}⟩

/-- The final step of `Parser::parse` (lines 222-231): when at least one
entry point exists, mirror `entry_points[0]`'s name, id, execution model,
stage and I/O variable lists into the module's top-level fields; otherwise
leave them untouched. -/
def mirrorFirstEntryPoint (m : ShaderModuleInternal) : ShaderModuleInternal :=
  if m.entry_points.length > 0 then
    let entry_point := m.entry_points.getD 0 default
    { m with entry_point_name := entry_point.name,
             entry_point_id := entry_point.id,
             spirv_execution_model := entry_point.spirv_execution_model,
             shader_stage := entry_point.shader_stage,
             input_variables := entry_point.input_variables,
             output_variables := entry_point.output_variables }
  else m

/-! Concrete SPIR-V fixtures used to settle the claims. -/

/-- A synthetic module whose static call graph is the cycle
`f (%6) → g (%9) → f (%6)`: an entry point on `f`, `OpTypeVoid %2`,
`OpTypeFunction %3`, then the two mutually recursive function definitions. -/
def W_CYC : List Nat :=
  [ 0x07230203, 0x00010000, 0x00080000, 100, 0,
    (4 <<< 16) ||| 15, 4, 6, 109,
    (2 <<< 16) ||| 19, 2,
    (3 <<< 16) ||| 33, 3, 2,
    (5 <<< 16) ||| 54, 2, 6, 0, 3,
    (2 <<< 16) ||| 248, 7,
    (4 <<< 16) ||| 57, 2, 8, 9,
    (1 <<< 16) ||| 253,
    (1 <<< 16) ||| 56,
    (5 <<< 16) ||| 54, 2, 9, 0, 3,
    (2 <<< 16) ||| 248, 10,
    (4 <<< 16) ||| 57, 2, 11, 6,
    (1 <<< 16) ||| 253,
    (1 <<< 16) ||| 56 ]

/-- The node-scan output for `W_CYC`. -/
def cycOut : ParseNodesOut :=
  match parse_nodes W_CYC with
  | some (.ok out) => out
  | _ => default

/-- The nodes of `W_CYC`. -/
def cycNodes : List ParserNode := cycOut.nodes

/-- The function table of `W_CYC`. -/
def cycFunctions : List ParserFunction :=
  match parse_functions W_CYC cycNodes cycOut.function_count with
  | .ok fns => fns
  | .error _ => []

/-- A module whose single instruction carries opcode number 9, which the
SPIR-V specification does not assign (8 is `OpLine`, 10 is `OpExtension`). -/
def W_BADOP : List Nat := [0x07230203, 0x00010000, 0, 100, 0, (1 <<< 16) ||| 9]

/-- A module whose single instruction is `OpNop` (opcode 0): a known opcode
that reflection does not interpret. -/
def W_NOP : List Nat := [0x07230203, 0x00010000, 0, 100, 0, (1 <<< 16) ||| 0]

/-- The node-scan output for `W_NOP`. -/
def wNopOut : ParseNodesOut :=
  match parse_nodes W_NOP with
  | some (.ok out) => out
  | _ => default

/-- A 32-bit integer type description. -/
def intTypeDesc : ReflectTypeDescription :=
  { id := 40, op := .TypeInt, type_flags := TYPE_FLAG_INT,
    traits_numeric := { scalar := { width := 32, signedness := 0 } }, members := [] }

/-- An `int`-typed block member at the given offset. -/
def intMember (off : Nat) : ReflectBlockVariable :=
  { offset := off, members := [], type_description := intTypeDesc }

/-- A one-member struct type description (no runtime array anywhere). -/
def structTypeDescOne : ReflectTypeDescription :=
  { id := 41, op := .TypeStruct, type_flags := TYPE_FLAG_STRUCT + TYPE_FLAG_EXTERNAL_BLOCK,
    decoration_flags := DECORATION_FLAG_BUFFER_BLOCK, members := [intTypeDesc] }

/-- A two-member struct type description (no runtime array anywhere). -/
def structTypeDescTwo : ReflectTypeDescription :=
  { id := 42, op := .TypeStruct, type_flags := TYPE_FLAG_STRUCT + TYPE_FLAG_EXTERNAL_BLOCK,
    decoration_flags := DECORATION_FLAG_BLOCK, members := [intTypeDesc, intTypeDesc] }

/-- A storage-buffer block `buffer S { uint x; }` containing no runtime
array. -/
def sbBlockNoRta : ReflectBlockVariable :=
  { members := [intMember 0], type_description := structTypeDescOne }

/-- A uniform-buffer-style block `{ uint a; uint b; }` with members at
offsets 0 and 4. -/
def ubBlockTwo : ReflectBlockVariable :=
  { members := [intMember 0, intMember 4], type_description := structTypeDescTwo }

/-- Nodes for the array-descent loop: `%20 = OpTypeArray %21 %30` whose
element type `%21` is a struct, exactly the shape that sends
`parse_descriptor_block_variable` into its descent loop. -/
def c6nodes : List ParserNode :=
  [ { result_id := 20, op := .TypeArray, is_type := true,
      array_traits := { element_type_id := 21, length_id := 30 } },
    { result_id := 21, op := .TypeStruct, is_type := true } ]

/-- An `OpVariable` node with assigned set/binding decorations. -/
def descVarNode (rid type_id binding : Nat) : ParserNode :=
  { result_id := rid, op := .Variable, type_id := type_id, storage_class := .Uniform,
    decorations := { set := { word_offset := 30, value := 0 },
                     binding := { word_offset := 34, value := binding } } }

/-- A type table for the descriptor-binding fixtures: a block struct
(id 100) and a 2×3 array type (id 101). -/
def c8types : List ReflectTypeDescription :=
  [ { id := 100, op := .TypeStruct, type_flags := TYPE_FLAG_STRUCT + TYPE_FLAG_EXTERNAL_BLOCK,
      decoration_flags := DECORATION_FLAG_BLOCK, members := [] },
    { id := 101, op := .TypeArray, type_flags := TYPE_FLAG_STRUCT + TYPE_FLAG_EXTERNAL_BLOCK,
      traits_array := { dims := [2, 3], stride := 16 }, members := [] } ]

/-- Nodes for the C8 witness: two qualifying variables (bindings 1 and 0,
the second of array type), one variable with unassigned decorations, and
one non-variable node. -/
def c8nodes : List ParserNode :=
  [ descVarNode 10 100 1,
    { result_id := 15, op := .Load },
    { result_id := 12, op := .Variable, type_id := 100, storage_class := .Uniform },
    descVarNode 11 101 0 ]

/-- The bindings produced for the C8 fixture. -/
def c8bs : List ReflectDescriptorBinding :=
  match parse_descriptor_bindings c8nodes c8types with
  | .ok bs => bs
  | .error _ => []

/-- Nodes for the C9 counterexample: bindings 0x80000000 and 1, both
assigned (≠ `u32::MAX`). -/
def c9nodes : List ParserNode :=
  [ descVarNode 10 100 2147483648, descVarNode 11 100 1 ]

/-- The bindings produced for the C9 counterexample fixture. -/
def c9bs : List ReflectDescriptorBinding :=
  match parse_descriptor_bindings c9nodes c8types with
  | .ok bs => bs
  | .error _ => []

/-- An entry point named "main" with one input and one output variable. -/
def c10ep : ReflectEntryPoint :=
  { name := [109, 97, 105, 110], id := 4, spirv_execution_model := some 4,
    shader_stage := .Fragment,
    input_variables := [{ spirv_id := 20, storage_class := .Input }],
    output_variables := [{ spirv_id := 21, storage_class := .Output }] }

/-- A module with two entry points whose top-level fields start out blank. -/
def c10module : ShaderModuleInternal :=
  { entry_points := [c10ep, { name := [102], id := 5 }] }

/-! Theorems. -/

/-- One iteration of the `parse_function` body loop never changes the
accumulator: the `continue` guard skips every node except `OpFunctionEnd`,
and `OpFunctionEnd` falls through the match to the empty default arm. -/
theorem parse_function_step_id (words : List Nat) (nodes : List ParserNode)
    (f : ParserFunction) (i : Nat) : parse_function_step words nodes f i = f := by
  unfold parse_function_step
  dsimp only
  split
  · rfl
  · split <;> simp_all

/-- The whole body fold is the identity. -/
theorem parse_function_foldl_id (words : List Nat) (nodes : List ParserNode) :
    ∀ (l : List Nat) (f : ParserFunction),
      l.foldl (parse_function_step words nodes) f = f := by
  intro l
  induction l with
  | nil => intro f; rfl
  | cons a t ih =>
    intro f
    rw [List.foldl_cons, parse_function_step_id]
    exact ih f

/-- `Parser::parse_function` always returns the function id with empty
callee and accessed lists, whatever the function body contains. -/
theorem parse_function_always_empty (words : List Nat) (nodes : List ParserNode) (i j : Nat) :
    parse_function words nodes i j =
      { id := (nodes.getD i default).result_id, callees := [], accessed := [] } := by
  unfold parse_function
  dsimp only
  rw [parse_function_foldl_id]
  rfl

/-- C1 (code_bug): the claim says `accessed` collects the pointer operands
of the memory-access opcodes and `callees` the `OpFunctionCall` targets in
the function body. In the source the body loop is guarded by
`if node_op != Op::FunctionEnd { continue; }` before matching on those very
opcodes, so both lists are always empty: the first conjunct proves this for
every input, and the remaining conjuncts evaluate the analyzer on the
concrete module `W_CYC`, whose first function body does contain an
`OpFunctionCall` (and the claim would demand `callees = [(9, _)]`). -/
theorem claim_C1 :
    (∀ (words : List Nat) (nodes : List ParserNode) (i j : Nat),
        (parse_function words nodes i j).callees = [] ∧
        (parse_function words nodes i j).accessed = []) ∧
    (cycNodes.getD 5 default).op = Op.FunctionCall ∧
    parse_function W_CYC cycNodes 3 4 = { id := 6, callees := [], accessed := [] } := by
  refine ⟨fun words nodes i j => ?_, by decide, by decide⟩
  rw [parse_function_always_empty]
  exact ⟨rfl, rfl⟩

/-- C2 (code_bug): the claim says a module whose entry-point call graph is
cyclic fails to parse with a cycle error. `W_CYC` contains the cycle
`f (%6) → g (%9) → f (%6)` (conjuncts 3-4 read the two `OpFunctionCall`
target operands), yet because `parse_function` never records callees
(claim C1), the function table of `W_CYC` has no edges and
`traverse_call_graph` from the entry point's function succeeds instead of
reporting "Entry point call graph must not contain cycles". -/
theorem claim_C2 :
    parse_nodes W_CYC = some (.ok cycOut) ∧
    cycOut.nodes.map (fun n => n.op) =
      [Op.EntryPoint, Op.TypeVoid, Op.TypeFunction, Op.Function, Op.Label, Op.FunctionCall,
       Op.OtherOp 253, Op.FunctionEnd, Op.Function, Op.Label, Op.FunctionCall,
       Op.OtherOp 253, Op.FunctionEnd] ∧
    wordAtD W_CYC ((cycNodes.getD 5 default).word_offset + 3) = 9 ∧
    wordAtD W_CYC ((cycNodes.getD 10 default).word_offset + 3) = 6 ∧
    parse_functions W_CYC cycNodes cycOut.function_count =
      .ok [{ id := 6, callees := [], accessed := [] },
           { id := 9, callees := [], accessed := [] }] ∧
    traverse_call_graph cycFunctions 0 [] 0 = .ok [6] := by
  exact ⟨by decide, by decide, by decide, by decide, by decide, by decide⟩

/-- Inversion of `Except` bind against a success result. -/
theorem except_bind_ok {α β : Type} (x : Except String α) (f : α → Except String β) (y : β) :
    (x >>= f) = .ok y ↔ ∃ v, x = .ok v ∧ f v = .ok y := by
  cases x <;> simp [Bind.bind, Except.bind]

/-- `pure` on `Except` against a success result. -/
theorem except_pure_ok {α : Type} (x y : α) :
    (pure x : Except String α) = .ok y ↔ x = y := by
  simp [pure, Except.pure]

/-- Inversion of `scanNodeFields`: on success, the produced node carries the
decoded opcode at the scanned word offset, and the nodes already in the
state keep their opcode and word offset (the `OpLabel` arm only rewrites an
earlier node's `result_id`). -/
theorem scanNodeFields_inv (words : List Nat) (wi : Nat) (op : Op) (st : PNState)
    (node : ParserNode) (st₂ : PNState)
    (h : scanNodeFields words wi op st = .ok (node, st₂)) :
    node.op = op ∧ node.word_offset = wi ∧
    ∀ n' ∈ st₂.nodes, ∃ n ∈ st.nodes, n'.op = n.op ∧ n'.word_offset = n.word_offset := by
  cases op <;>
    simp only [scanNodeFields, except_bind_ok, except_pure_ok, Except.ok.injEq,
      Prod.mk.injEq] at h
  all_goals
    try (split at h <;>
      simp only [except_bind_ok, except_pure_ok, Except.ok.injEq, Prod.mk.injEq,
        reduceCtorEq, exists_false, false_and, and_false] at h)
  all_goals
    repeat
      first
      | (obtain ⟨_, _, h⟩ := h)
      | (obtain ⟨h1, h2⟩ := h)
  all_goals subst_vars
  all_goals
    first
    | exact ⟨rfl, rfl, fun n' hn' => ⟨n', hn', rfl, rfl⟩⟩
    | skip
  -- the two remaining storage-class matches (`TypeForwardPointer`, `Variable`)
  all_goals
    try (split at h <;>
      simp only [except_pure_ok, Except.ok.injEq, Prod.mk.injEq, reduceCtorEq] at h <;>
      (obtain ⟨h1, h2⟩ := h; subst_vars;
       exact ⟨rfl, rfl, fun n' hn' => ⟨n', hn', rfl, rfl⟩⟩))
  -- the `OpLabel` in-place update of the earlier `OpFunction` node
  all_goals refine ⟨rfl, rfl, fun n' hn' => ?_⟩
  all_goals
    by_cases hk : st.function_node < st.nodes.length
  · rcases List.mem_or_eq_of_mem_set hn' with h1 | h2
    · exact ⟨n', h1, rfl, rfl⟩
    · subst h2
      refine ⟨st.nodes.getD st.function_node default, ?_, rfl, rfl⟩
      rw [List.getD_eq_getElem _ _ hk]
      exact List.getElem_mem hk
  · rw [List.set_eq_of_length_le (Nat.le_of_not_lt hk)] at hn'
    exact ⟨n', hn', rfl, rfl⟩

/-- Inversion of one populate iteration: every node in the output state is
either inherited (same opcode and word offset) from the input state or is
the newly appended node, whose opcode decodes from the word at its recorded
offset. -/
theorem scanInstruction_inv (words : List Nat) (wi : Nat) (st st₂ : PNState)
    (h : scanInstruction words wi st = .ok st₂) :
    ∀ n' ∈ st₂.nodes,
      (∃ n ∈ st.nodes, n'.op = n.op ∧ n'.word_offset = n.word_offset) ∨
      (Op.from_u32 (low16 (wordAtD words n'.word_offset)) = some n'.op ∧
        n'.word_offset = wi) := by
  unfold scanInstruction at h
  split at h
  · simp at h
  · rename_i op hop
    rw [except_bind_ok] at h
    obtain ⟨⟨node, st₃⟩, hnf, hrest⟩ := h
    obtain ⟨hop', hwo, hpres⟩ := scanNodeFields_inv words wi op st node st₃ hnf
    have hnodes : st₂.nodes = st₃.nodes ++ [node] := by
      rw [except_pure_ok] at hrest
      subst hrest
      split <;> rfl
    intro n' hn'
    rw [hnodes] at hn'
    rcases List.mem_append.1 hn' with h1 | h2
    · exact Or.inl (hpres n' h1)
    · have hn'eq : n' = node := List.mem_singleton.1 h2
      subst hn'eq
      rw [hwo, hop']
      exact Or.inr ⟨hop, rfl⟩

/-- Loop invariant of the populate pass: if every accumulated node's opcode
decodes from the word at its offset, the same holds after the loop runs to
completion. -/
theorem parseNodesLoop_opsMapped (words : List Nat) :
    ∀ (fuel wi : Nat) (st st' : PNState),
      parseNodesLoop words fuel wi st = some (.ok st') →
      (∀ n ∈ st.nodes, Op.from_u32 (low16 (wordAtD words n.word_offset)) = some n.op) →
      ∀ n ∈ st'.nodes, Op.from_u32 (low16 (wordAtD words n.word_offset)) = some n.op := by
  intro fuel
  induction fuel with
  | zero =>
    intro wi st st' h
    simp [parseNodesLoop] at h
  | succ k ih =>
    intro wi st st' h hP
    unfold parseNodesLoop at h
    split at h
    · split at h
      · simp at h
      · rename_i st₂ hscan
        refine ih _ _ _ h ?_
        intro n hn
        rcases scanInstruction_inv words wi st st₂ hscan n hn with ⟨m, hm, hop, hwo⟩ | ⟨hdec, _⟩
        · rw [hop, hwo]
          exact hP m hm
        · exact hdec
    · simp only [Option.some.injEq, Except.ok.injEq] at h
      subst h
      exact hP

/-- C3 (corrected) — the amended claim: an instruction whose opcode integer
does not map to a known opcode variant makes the node scan fail (first
conjunct, contrapositively: on success every recorded node's opcode decodes
from the word at its offset), while a mapped opcode irrelevant to
reflection is recorded as a default-initialized node carrying only
`op`/`word_count`/`word_offset` and is not interpreted further (remaining
conjuncts: the `OpNop` module). -/
theorem claim_C3_amended :
    (∀ (words : List Nat) (out : ParseNodesOut),
        parse_nodes words = some (.ok out) →
        ∀ n ∈ out.nodes, Op.from_u32 (low16 (wordAtD words n.word_offset)) = some n.op) ∧
    parse_nodes W_NOP = some (.ok wNopOut) ∧
    wNopOut.nodes = [{ op := Op.OtherOp 0, word_offset := 5, word_count := 1 }] := by
  refine ⟨?_, by decide, by decide⟩
  intro words out h n hn
  unfold parse_nodes at h
  split at h
  · exact absurd h (by simp)
  · split at h
    · exact absurd h (by simp)
    · split at h
      · exact absurd h (by simp)
      · exact absurd h (by simp)
      · rename_i st hloop
        simp only [Option.some.injEq, Except.ok.injEq] at h
        subst h
        exact parseNodesLoop_opsMapped words _ _ _ _ hloop (by simp) n hn

/-- C3 — counterexample to the claim as stated: the claim says an unmapped
opcode integer does not make the node-scan stage fail, but `parse_nodes`
returns the invalid-op error on a module whose single instruction carries
the unassigned opcode number 9. -/
theorem claim_C3_counterexample :
    parse_nodes W_BADOP = some (.error "Invalid SPIR-V op: 9") ∧ Op.from_u32 9 = none := by
  exact ⟨by decide, by decide⟩

/-- Witness for the amended C3 at the `OpNop` module. -/
theorem claim_C3_amended_witness :
    parse_nodes W_NOP = some (.ok wNopOut) ∧
    Op.from_u32 (low16 (wordAtD W_NOP (wNopOut.nodes.getD 0 default).word_offset)) =
      some (wNopOut.nodes.getD 0 default).op :=
  ⟨by decide, claim_C3_amended.1 W_NOP wNopOut (by decide)
    (wNopOut.nodes.getD 0 default) (by decide)⟩

/-- C6 (code_bug): the claim says the `TypeArray` descent loop reaches the
inner element type in finitely many steps. The loop condition tests
`type_node_index`, which the body never updates, so on `c6nodes` (an
`OpTypeArray` whose element type resolves fine — conjuncts 1-2 check the
claim's premise holds) the loop never terminates: no amount of fuel makes
it produce a result. -/
theorem claim_C6 :
    (c6nodes.getD 0 default).op = Op.TypeArray ∧
    find_node c6nodes ((c6nodes.getD 0 default).array_traits.element_type_id) = some 1 ∧
    ∀ (fuel resolved : Nat), descendArrayLoopFuel c6nodes 0 fuel resolved = none := by
  refine ⟨by decide, by decide, ?_⟩
  intro fuel
  induction fuel with
  | zero => intro r; rfl
  | succ k ih =>
    intro r
    rw [show descendArrayLoopFuel c6nodes 0 (k + 1) r = descendArrayLoopFuel c6nodes 0 k 1
      from rfl]
    exact ih 1

/-- C7 (code_bug): the generator mapping itself behaves as the claim says
(upper 16 bits of header word 2, the enumerated list, `Unknown` otherwise) —
the conjuncts evaluate it, including on `W_CYC`'s header — but in the source
this value is bound to the deliberately unused local `_generator` in
`Parser::parse` and is never stored in the `ShaderModule`, so it is not part
of the queryable output. -/
theorem claim_C7 :
    parse_generator 0x00080000 = ReflectGenerator.KhronosGlslangReferenceFrontEnd ∧
    parse_generator 0x000D0000 = ReflectGenerator.GoogleShadercOverGlslang ∧
    parse_generator 0x000F0000 = ReflectGenerator.GoogleRspirv ∧
    parse_generator 0x00100000 = ReflectGenerator.XLegendMesaMesairSpirvTranslator ∧
    parse_generator 0x00060000 = ReflectGenerator.KhronosLlvmSpirvTranslator ∧
    parse_generator 0x30A10000 = ReflectGenerator.Unknown ∧
    high16 (W_CYC.getD 2 0) = 8 := by
  decide

/-- A successful `findIdx?` returns an in-range index. -/
theorem findIdx?_lt_length {α : Type} (p : α → Bool) :
    ∀ (l : List α) (i : Nat), l.findIdx? p = some i → i < l.length := by
  intro l i h
  rcases List.findIdx?_eq_some_iff_getElem.1 h with ⟨hlt, _⟩
  exact hlt

/-- Inversion of the binding-construction loop: one binding per selected
node, and membership corresponds in both directions. -/
theorem buildAllBindings_inv (nodes : List ParserNode) (types : List ReflectTypeDescription) :
    ∀ (l : List ParserNode) (bs : List ReflectDescriptorBinding),
      buildAllBindings nodes types l = .ok bs →
      bs.length = l.length ∧
      (∀ b ∈ bs, ∃ n ∈ l, buildDescriptorBinding nodes types n = .ok b) ∧
      (∀ n ∈ l, ∃ b ∈ bs, buildDescriptorBinding nodes types n = .ok b) := by
  intro l
  induction l with
  | nil =>
    intro bs h
    simp only [buildAllBindings, Except.ok.injEq] at h
    subst h
    simp
  | cons n rest ih =>
    intro bs h
    unfold buildAllBindings at h
    rw [except_bind_ok] at h
    obtain ⟨b, hb, h⟩ := h
    rw [except_bind_ok] at h
    obtain ⟨bs', hbs', h⟩ := h
    rw [except_pure_ok] at h
    subst h
    obtain ⟨hlen, hall, hfwd⟩ := ih bs' hbs'
    refine ⟨by simp [hlen], ?_, ?_⟩
    · intro b' hb'
      rcases List.mem_cons.1 hb' with rfl | h2
      · exact ⟨n, List.mem_cons_self n rest, hb⟩
      · obtain ⟨m, hm, hbuild⟩ := hall b' h2
        exact ⟨m, List.mem_cons_of_mem _ hm, hbuild⟩
    · intro m hm
      rcases List.mem_cons.1 hm with rfl | h2
      · exact ⟨b, List.mem_cons_self b bs', hb⟩
      · obtain ⟨b', hb', hbuild⟩ := hfwd m h2
        exact ⟨b', List.mem_cons_of_mem _ hb', hbuild⟩

/-- A successful pointer hop returns an in-range type index. -/
theorem resolvePointee_lt (nodes : List ParserNode) (types : List ReflectTypeDescription)
    (t0 : ReflectTypeDescription) (dt dt' : ReflectDescriptorType) (rti : Nat)
    (h : resolvePointee nodes types t0 dt = .ok (dt', rti)) : rti < types.length := by
  unfold resolvePointee at h
  split at h
  · simp at h
  · dsimp only at h
    split at h
    · simp at h
    · rename_i p hp
      simp only [Except.ok.injEq, Prod.mk.injEq] at h
      obtain ⟨-, rfl⟩ := h
      exact findIdx?_lt_length _ _ _ hp

theorem buildDescriptorBinding_inv (nodes : List ParserNode)
    (types : List ReflectTypeDescription) (node : ParserNode) (b : ReflectDescriptorBinding)
    (h : buildDescriptorBinding nodes types node = .ok b) :
    b.spirv_id = node.result_id ∧ b.set = node.decorations.set.value ∧
    b.binding = node.decorations.binding.value ∧
    ∃ rti, b.type_index = some rti ∧ rti < types.length ∧
      b.array_dims = (types.getD rti default).traits_array.dims ∧
      b.count = (types.getD rti default).traits_array.dims.foldl w32mul 1 := by
  unfold buildDescriptorBinding at h
  split at h
  · simp at h
  · rename_i ti hti
    dsimp only at h
    split at h
    · simp at h
    · rename_i dt rti hres
      simp only [Except.ok.injEq] at h
      subst h
      have hrti : rti < types.length := by
        split at hres
        · split at hres
          any_goals exact resolvePointee_lt _ _ _ _ _ _ hres
          simp at hres
        · simp only [Except.ok.injEq, Prod.mk.injEq] at hres
          obtain ⟨-, rfl⟩ := hres
          exact findIdx?_lt_length _ _ _ hti
      exact ⟨rfl, rfl, rfl, rti, rfl, hrti, rfl, rfl⟩

/-- C8 (confirmed): on a successful run, a node produces a descriptor
binding iff its opcode is `OpVariable` and both its set and binding
decorations differ from the `u32::MAX` sentinel (no storage-class
restriction — the selection predicate mentions nothing else), and each
binding's `count` is the u32 product of the resolved type's array dims
(which is 1 when there are no dims, since the product of the empty list is
the initial accumulator 1). -/
theorem claim_C8 (nodes : List ParserNode) (types : List ReflectTypeDescription)
    (bs : List ReflectDescriptorBinding)
    (h : parse_descriptor_bindings nodes types = .ok bs) :
    (∀ n : ParserNode, descriptorQualifies n = true ↔
      (n.op = Op.Variable ∧ n.decorations.set.value ≠ UMAX ∧
        n.decorations.binding.value ≠ UMAX)) ∧
    bs.length = (nodes.filter descriptorQualifies).length ∧
    (∀ b ∈ bs, ∃ n ∈ nodes, descriptorQualifies n = true ∧ b.spirv_id = n.result_id ∧
      b.set = n.decorations.set.value ∧ b.binding = n.decorations.binding.value) ∧
    (∀ n ∈ nodes, descriptorQualifies n = true → ∃ b ∈ bs, b.spirv_id = n.result_id) ∧
    (∀ b ∈ bs, ∃ rti, b.type_index = some rti ∧ rti < types.length ∧
      b.array_dims = (types.getD rti default).traits_array.dims ∧
      b.count = b.array_dims.foldl w32mul 1) := by
  unfold parse_descriptor_bindings at h
  rw [except_bind_ok] at h
  obtain ⟨bs₀, hbuild, hpure⟩ := h
  rw [except_pure_ok] at hpure
  subst hpure
  have hperm : List.Perm (List.insertionSort bindingLe bs₀) bs₀ :=
    List.perm_insertionSort bindingLe bs₀
  obtain ⟨hlen, hall, hfwd⟩ := buildAllBindings_inv nodes types _ bs₀ hbuild
  refine ⟨?_, ?_, ?_, ?_, ?_⟩
  · intro n
    simp [descriptorQualifies, not_or]
  · rw [hperm.length_eq, hlen]
  · intro b hb
    obtain ⟨n, hn, hbuildn⟩ := hall b (hperm.mem_iff.1 hb)
    obtain ⟨h1, h2, h3, _⟩ := buildDescriptorBinding_inv nodes types n b hbuildn
    exact ⟨n, (List.mem_filter.1 hn).1, (List.mem_filter.1 hn).2, h1, h2, h3⟩
  · intro n hn hq
    obtain ⟨b, hb, hbuildn⟩ := hfwd n (List.mem_filter.2 ⟨hn, hq⟩)
    obtain ⟨h1, -⟩ := buildDescriptorBinding_inv nodes types n b hbuildn
    exact ⟨b, hperm.mem_iff.2 hb, h1⟩
  · intro b hb
    obtain ⟨n, hn, hbuildn⟩ := hall b (hperm.mem_iff.1 hb)
    obtain ⟨-, -, -, rti, h4, h5, h6, h7⟩ := buildDescriptorBinding_inv nodes types n b hbuildn
    exact ⟨rti, h4, h5, h6, by rw [h6, h7]⟩

/-- Witness for C8 at the concrete four-node fixture (two qualifying
variables, one undecorated variable, one non-variable node). -/
theorem claim_C8_witness :
    parse_descriptor_bindings c8nodes c8types = .ok c8bs ∧
    c8bs.length = (c8nodes.filter descriptorQualifies).length :=
  ⟨rfl, (claim_C8 c8nodes c8types c8bs rfl).2.1⟩

/-- C9 — counterexample to the claim as stated: with assigned u32 bindings
0x80000000 and 1 (both ≠ `u32::MAX`), the comparator's `as i32` casts order
0x80000000 (= -2^31 as `i32`) before 1, so the adjacent pair violates
ascending u32 order on `(binding, spirv_id)`. -/
theorem claim_C9_counterexample :
    (parse_descriptor_bindings c9nodes c8types).map
        (fun bs => bs.map (fun b => (b.binding, b.spirv_id))) =
      .ok [(2147483648, 10), (1, 11)] ∧
    ¬((2147483648 : Nat) < 1 ∨ ((2147483648 : Nat) = 1 ∧ (10 : Nat) ≤ 11)) :=
  ⟨rfl, by decide⟩

/-- C9 (corrected) — the amended claim: after a successful run the
descriptor bindings are sorted ascending by `(binding, spirv_id)` compared
as signed 32-bit integers (the comparator casts both u32 keys `as i32`);
the adjacent-pair formulation follows. -/
theorem claim_C9_amended (nodes : List ParserNode) (types : List ReflectTypeDescription)
    (bs : List ReflectDescriptorBinding)
    (h : parse_descriptor_bindings nodes types = .ok bs) :
    bs.Sorted bindingLe ∧
    ∀ i : Nat, i + 1 < bs.length → bindingLe (bs.getD i default) (bs.getD (i + 1) default) := by
  unfold parse_descriptor_bindings at h
  rw [except_bind_ok] at h
  obtain ⟨bs₀, hbuild, hpure⟩ := h
  rw [except_pure_ok] at hpure
  subst hpure
  have hs := List.sorted_insertionSort bindingLe bs₀
  refine ⟨hs, fun i hi => ?_⟩
  rw [List.getD_eq_getElem _ _ (by omega), List.getD_eq_getElem _ _ hi]
  exact List.Sorted.rel_get_of_lt hs (by simp)

/-- Witness for the amended C9 at the concrete fixture. -/
theorem claim_C9_amended_witness :
    parse_descriptor_bindings c8nodes c8types = .ok c8bs ∧ c8bs.Sorted bindingLe :=
  ⟨rfl, (claim_C9_amended c8nodes c8types c8bs rfl).1⟩

/-- Wrapping u32 addition is exact below the modulus. -/
theorem w32add_exact {a b : Nat} (h : a + b < U32MOD) : w32add a b = a + b := by
  unfold w32add
  exact Nat.mod_eq_of_lt h

/-- Wrapping u32 subtraction is exact for in-range operands. -/
theorem w32sub_exact {a b : Nat} (hba : b ≤ a) (ha : a < U32MOD) : w32sub a b = a - b := by
  unfold w32sub U32MOD at *
  omega

/-- The alignment mask clears the low 4 bits. -/
theorem alignDown16_mod16 (x : Nat) : alignDown16 x % 16 = 0 := by
  unfold alignDown16
  omega

theorem alignDown16_le (x : Nat) : alignDown16 x ≤ x := by
  unfold alignDown16
  omega

theorem sub_le_alignDown16 (x : Nat) : x - 15 ≤ alignDown16 x := by
  unfold alignDown16
  omega

/-- The sized member list is a plain map of `sizeOneMember`. -/
theorem blockSizedMembers_eq_map (r a rta : Bool) (v : ReflectBlockVariable) :
    blockSizedMembers r a rta v =
      v.members.map (sizeOneMember r a rta v.absolute_offset) := by
  rw [blockSizedMembers]
  exact List.attach_map_val _ _

/-- The size pass never changes a variable's relative offset. -/
theorem pdbvs_offset (r a rta : Bool) (v : ReflectBlockVariable) :
    (parse_descriptor_block_variable_sizes r a rta v).offset = v.offset := by
  rw [parse_descriptor_block_variable_sizes]
  split
  · rfl
  · rfl

/-- `sizeOneMember` never changes a member's relative offset. -/
theorem sizeOneMember_offset (r a rta : Bool) (pabs : Nat) (m : ReflectBlockVariable) :
    (sizeOneMember r a rta pabs m).offset = m.offset := by
  rw [sizeOneMember]
  dsimp only
  split <;> (try split_ifs) <;> simp only [pdbvs_offset]

/-- Indexing the sized member list. -/
theorem blockSizedMembers_getD (r a rta : Bool) (v : ReflectBlockVariable) (j : Nat)
    (hj : j < v.members.length) :
    (blockSizedMembers r a rta v).getD j default =
      sizeOneMember r a rta v.absolute_offset (v.members.getD j default) := by
  rw [blockSizedMembers_eq_map, List.getD_eq_getElem _ _ (by simpa using hj),
    List.getElem_map, List.getD_eq_getElem _ _ hj]

/-- The padding pass preserves length. -/
theorem blockPadMembers_length (rta : Bool) (ms : List ReflectBlockVariable) :
    (blockPadMembers rta ms).length = ms.length := by
  rw [blockPadMembers]
  simp

/-- Indexing the padded member list: non-terminal members are padded against
the next member's offset, the last member against the 16-byte alignment. -/
theorem blockPadMembers_getD (rta : Bool) (ms : List ReflectBlockVariable) (i : Nat)
    (hi : i < ms.length) :
    (blockPadMembers rta ms).getD i default =
      (if i + 1 < ms.length then
        blockPadMid rta (ms.getD i default) (ms.getD (i + 1) default).offset
       else blockPadLast rta (ms.getD i default)) := by
  rw [blockPadMembers, List.getD_eq_getElem _ _ (by simpa using hi), List.getElem_ofFn]
  by_cases h2 : i + 1 < ms.length
  · rw [if_pos h2, dif_pos h2, List.getD_eq_getElem _ _ hi, List.getD_eq_getElem _ _ h2]
    rfl
  · rw [if_neg h2, dif_neg h2, List.getD_eq_getElem _ _ hi]
    rfl

/-- Closed form of the non-terminal padding step outside runtime-array
context. -/
theorem blockPadMid_spec (m : ReflectBlockVariable) (noff : Nat) :
    blockPadMid false m noff =
      { m with padded_size := w32sub noff m.offset,
               size := if m.size > w32sub noff m.offset then w32sub noff m.offset
                       else m.size } := by
  unfold blockPadMid
  simp

/-- Closed form of the last-member padding step outside runtime-array
context. -/
theorem blockPadLast_spec (m : ReflectBlockVariable) :
    blockPadLast false m =
      { m with padded_size := w32sub (alignDown16 (w32add (w32add m.offset m.size) 15)) m.offset,
               size := if m.size >
                   w32sub (alignDown16 (w32add (w32add m.offset m.size) 15)) m.offset
                 then w32sub (alignDown16 (w32add (w32add m.offset m.size) 15)) m.offset
                 else m.size } := by
  unfold blockPadLast
  simp

/-- The last-member padding step, with exact arithmetic under the no-wrap
hypothesis: the padded size rounds `offset + size` up to the next multiple
of 16 (measured from `offset`), the size clamp is a no-op, and
`offset + padded_size` is 16-aligned. -/
theorem blockPadLast_exact (m : ReflectBlockVariable) (h : m.offset + m.size + 15 < U32MOD) :
    (blockPadLast false m).offset = m.offset ∧
    (blockPadLast false m).size = m.size ∧
    m.offset + (blockPadLast false m).padded_size =
      alignDown16 (m.offset + m.size + 15) ∧
    m.offset + m.size ≤ m.offset + (blockPadLast false m).padded_size ∧
    (m.offset + (blockPadLast false m).padded_size) % 16 = 0 := by
  have h0 : w32add m.offset m.size = m.offset + m.size := w32add_exact (by omega)
  have h1 : w32add (w32add m.offset m.size) 15 = m.offset + m.size + 15 := by
    rw [h0]
    exact w32add_exact h
  have hA1 : m.offset + m.size ≤ alignDown16 (m.offset + m.size + 15) := by
    have := sub_le_alignDown16 (m.offset + m.size + 15)
    omega
  have hA2 : alignDown16 (m.offset + m.size + 15) < U32MOD := by
    have := alignDown16_le (m.offset + m.size + 15)
    omega
  have hsub : w32sub (alignDown16 (w32add (w32add m.offset m.size) 15)) m.offset =
      alignDown16 (m.offset + m.size + 15) - m.offset := by
    rw [h1]
    exact w32sub_exact (by omega) hA2
  have hclamp : ¬(m.size > w32sub (alignDown16 (w32add (w32add m.offset m.size) 15)) m.offset) := by
    rw [hsub]
    omega
  rw [blockPadLast_spec]
  refine ⟨rfl, ?_, ?_, ?_, ?_⟩
  · simp only [if_neg hclamp]
  · simp only [hsub]
    omega
  · simp only [hsub]
    omega
  · simp only [hsub]
    have := alignDown16_mod16 (m.offset + m.size + 15)
    omega

/-- One-step unfolding of the size pass for a nonempty member list. -/
theorem pdbvs_unfold (r a rta : Bool) (v : ReflectBlockVariable) (h : v.members ≠ []) :
    parse_descriptor_block_variable_sizes r a rta v =
      { v with members := blockPadMembers rta (blockSizedMembers r a rta v),
               size := w32add
                 (((blockPadMembers rta (blockSizedMembers r a rta v)).getD
                   ((blockPadMembers rta (blockSizedMembers r a rta v)).length - 1)
                   default).offset)
                 (((blockPadMembers rta (blockSizedMembers r a rta v)).getD
                   ((blockPadMembers rta (blockSizedMembers r a rta v)).length - 1)
                   default).padded_size),
               padded_size := w32add
                 (((blockPadMembers rta (blockSizedMembers r a rta v)).getD
                   ((blockPadMembers rta (blockSizedMembers r a rta v)).length - 1)
                   default).offset)
                 (((blockPadMembers rta (blockSizedMembers r a rta v)).getD
                   ((blockPadMembers rta (blockSizedMembers r a rta v)).length - 1)
                   default).padded_size) } := by
  rw [parse_descriptor_block_variable_sizes]
  rw [if_neg (by simpa using h)]

theorem blockPadMid_offset (m : ReflectBlockVariable) (noff : Nat) :
    (blockPadMid false m noff).offset = m.offset := by
  rw [blockPadMid_spec]

theorem blockPadLast_offset (m : ReflectBlockVariable) :
    (blockPadLast false m).offset = m.offset := by
  rw [blockPadLast_spec]

theorem blockPadMid_padded (m : ReflectBlockVariable) (noff : Nat) :
    (blockPadMid false m noff).padded_size = w32sub noff m.offset := by
  rw [blockPadMid_spec]

theorem blockPadMid_size_le (m : ReflectBlockVariable) (noff : Nat) :
    (blockPadMid false m noff).size ≤ (blockPadMid false m noff).padded_size := by
  rw [blockPadMid_spec]
  dsimp only
  split_ifs <;> omega

/-- Evaluation of the size pass on `sbBlockNoRta` in storage-buffer
(runtime-array-flag) context: the computed block size is the nonzero
`last.offset + last.padded_size = 4`. -/
theorem sb_pdbvs :
    parse_descriptor_block_variable_sizes true false true sbBlockNoRta =
      { sbBlockNoRta with
        members := [{ intMember 0 with absolute_offset := 0, size := 4, padded_size := 4 }],
        size := 4, padded_size := 4 } := by
  have hs : blockSizedMembers true false true sbBlockNoRta =
      [{ intMember 0 with absolute_offset := 0, size := 4 }] := by
    rw [blockSizedMembers_eq_map]
    show [sizeOneMember true false true 0 (intMember 0)] = _
    rw [sizeOneMember]
    rfl
  rw [pdbvs_unfold true false true sbBlockNoRta (by simp [sbBlockNoRta]), hs]
  rfl

/-- C4 counterexample: `sbBlockNoRta` is a storage-buffer block that
contains no runtime array anywhere, and the size pass computes the nonzero
size 4 = last.offset + last.padded_size for it; yet the per-block tail of
`parse_descriptor_blocks` forces its `size` and `padded_size` to 0,
because the zeroing is keyed on the descriptor type being StorageBuffer
alone, not on actual runtime-array presence as the claim states. -/
theorem claim_C4_counterexample :
    containsRuntimeArray sbBlockNoRta = false ∧
    (parse_descriptor_block_variable_sizes true false true sbBlockNoRta).size = 4 ∧
    (descriptorBlockSizePass ReflectDescriptorType.StorageBuffer sbBlockNoRta).size = 0 ∧
    (descriptorBlockSizePass ReflectDescriptorType.StorageBuffer sbBlockNoRta).padded_size = 0 := by
  refine ⟨?_, ?_, ?_, ?_⟩
  · simp [containsRuntimeArray, containsRuntimeArrayList, rtaInType, rtaInTypeList,
      sbBlockNoRta, intMember, intTypeDesc, structTypeDescOne]
  · rw [sb_pdbvs]
  · simp only [descriptorBlockSizePass]
    rw [if_pos trivial]
  · simp only [descriptorBlockSizePass]
    rw [if_pos trivial]

/-- C4 (amended): for every block with at least one member, the block layout
computer sets `size` and `padded_size` to `last_member.offset +
last_member.padded_size` (wrapping u32 arithmetic) for every non-StorageBuffer
descriptor type, and forces both to 0 exactly when the descriptor type is
StorageBuffer — a test keyed on the descriptor type alone, regardless of
whether the block actually contains a runtime array. -/
theorem claim_C4_amended (dt : ReflectDescriptorType) (block : ReflectBlockVariable)
    (h : block.members ≠ []) :
    (dt = ReflectDescriptorType.StorageBuffer →
       (descriptorBlockSizePass dt block).size = 0 ∧
       (descriptorBlockSizePass dt block).padded_size = 0) ∧
    (dt ≠ ReflectDescriptorType.StorageBuffer →
       (descriptorBlockSizePass dt block).size =
         w32add
           (((descriptorBlockSizePass dt block).members.getD
             ((descriptorBlockSizePass dt block).members.length - 1) default).offset)
           (((descriptorBlockSizePass dt block).members.getD
             ((descriptorBlockSizePass dt block).members.length - 1) default).padded_size) ∧
       (descriptorBlockSizePass dt block).padded_size =
         (descriptorBlockSizePass dt block).size) := by
  by_cases hdt : dt = ReflectDescriptorType.StorageBuffer
  · subst hdt
    refine ⟨fun _ => ⟨?_, ?_⟩, fun hne => absurd rfl hne⟩
    · simp only [descriptorBlockSizePass]
      rw [if_pos trivial]
    · simp only [descriptorBlockSizePass]
      rw [if_pos trivial]
  · refine ⟨fun heq => absurd heq hdt, fun _ => ?_⟩
    simp only [descriptorBlockSizePass]
    rw [if_neg hdt, pdbvs_unfold _ _ _ _ h]
    exact ⟨rfl, rfl⟩

/-- Instantiation of the amended C4 statement at a uniform-buffer block. -/
theorem claim_C4_amended_witness :
    ubBlockTwo.members ≠ [] ∧
    ((ReflectDescriptorType.UniformBuffer = ReflectDescriptorType.StorageBuffer →
        (descriptorBlockSizePass ReflectDescriptorType.UniformBuffer ubBlockTwo).size = 0 ∧
        (descriptorBlockSizePass ReflectDescriptorType.UniformBuffer ubBlockTwo).padded_size = 0) ∧
     (ReflectDescriptorType.UniformBuffer ≠ ReflectDescriptorType.StorageBuffer →
        (descriptorBlockSizePass ReflectDescriptorType.UniformBuffer ubBlockTwo).size =
          w32add
            (((descriptorBlockSizePass ReflectDescriptorType.UniformBuffer ubBlockTwo).members.getD
              ((descriptorBlockSizePass ReflectDescriptorType.UniformBuffer ubBlockTwo).members.length - 1)
              default).offset)
            (((descriptorBlockSizePass ReflectDescriptorType.UniformBuffer ubBlockTwo).members.getD
              ((descriptorBlockSizePass ReflectDescriptorType.UniformBuffer ubBlockTwo).members.length - 1)
              default).padded_size) ∧
        (descriptorBlockSizePass ReflectDescriptorType.UniformBuffer ubBlockTwo).padded_size =
          (descriptorBlockSizePass ReflectDescriptorType.UniformBuffer ubBlockTwo).size)) :=
  ⟨by simp [ubBlockTwo],
   claim_C4_amended ReflectDescriptorType.UniformBuffer ubBlockTwo (by simp [ubBlockTwo])⟩

/-- C5 (confirmed): for a block with at least one member, not in
runtime-array context, with in-range nondecreasing member offsets and a
non-overflowing last member: every non-terminal padded member satisfies
`padded_size[i] = offset[i+1] - offset[i]` and `size[i] ≤ padded_size[i]`,
and the block's `size` equals `last.offset + last.padded_size` with that
sum divisible by 16. -/
theorem claim_C5 (root aos : Bool) (v : ReflectBlockVariable)
    (h1 : v.members ≠ [])
    (h2 : ∀ m ∈ v.members, m.offset < U32MOD)
    (h3 : ∀ i, i + 1 < v.members.length →
        (v.members.getD i default).offset ≤ (v.members.getD (i + 1) default).offset)
    (h4 : (sizeOneMember root aos false v.absolute_offset
            (v.members.getD (v.members.length - 1) default)).offset +
          (sizeOneMember root aos false v.absolute_offset
            (v.members.getD (v.members.length - 1) default)).size + 15 < U32MOD) :
    (∀ i, i + 1 < (parse_descriptor_block_variable_sizes root aos false v).members.length →
       ((parse_descriptor_block_variable_sizes root aos false v).members.getD i default).padded_size =
         ((parse_descriptor_block_variable_sizes root aos false v).members.getD (i + 1) default).offset -
         ((parse_descriptor_block_variable_sizes root aos false v).members.getD i default).offset ∧
       ((parse_descriptor_block_variable_sizes root aos false v).members.getD i default).size ≤
         ((parse_descriptor_block_variable_sizes root aos false v).members.getD i default).padded_size) ∧
    (parse_descriptor_block_variable_sizes root aos false v).size =
      (((parse_descriptor_block_variable_sizes root aos false v).members.getD
        ((parse_descriptor_block_variable_sizes root aos false v).members.length - 1) default).offset) +
      (((parse_descriptor_block_variable_sizes root aos false v).members.getD
        ((parse_descriptor_block_variable_sizes root aos false v).members.length - 1) default).padded_size) ∧
    (parse_descriptor_block_variable_sizes root aos false v).size % 16 = 0 := by
  have hn : 0 < v.members.length := List.length_pos.mpr h1
  have hlenS : (blockSizedMembers root aos false v).length = v.members.length := by
    rw [blockSizedMembers_eq_map, List.length_map]
  have hlenP : (blockPadMembers false (blockSizedMembers root aos false v)).length =
      v.members.length := by
    rw [blockPadMembers_length, hlenS]
  have hgS : ∀ j, j < v.members.length →
      (blockSizedMembers root aos false v).getD j default =
        sizeOneMember root aos false v.absolute_offset (v.members.getD j default) :=
    fun j hj => blockSizedMembers_getD root aos false v j hj
  have hoff : ∀ j, j < v.members.length →
      ((blockSizedMembers root aos false v).getD j default).offset =
        (v.members.getD j default).offset := by
    intro j hj
    rw [hgS j hj, sizeOneMember_offset]
  have hlast : (blockPadMembers false (blockSizedMembers root aos false v)).getD
      ((blockPadMembers false (blockSizedMembers root aos false v)).length - 1) default =
      blockPadLast false (sizeOneMember root aos false v.absolute_offset
        (v.members.getD (v.members.length - 1) default)) := by
    rw [hlenP]
    rw [blockPadMembers_getD false _ (v.members.length - 1) (by rw [hlenS]; omega)]
    rw [if_neg (by rw [hlenS]; omega)]
    rw [hgS (v.members.length - 1) (by omega)]
  obtain ⟨hLo, hLs, hLsum, hLle, hLmod⟩ := blockPadLast_exact
    (sizeOneMember root aos false v.absolute_offset
      (v.members.getD (v.members.length - 1) default)) h4
  have hbound :
      (blockPadLast false (sizeOneMember root aos false v.absolute_offset
        (v.members.getD (v.members.length - 1) default))).offset +
      (blockPadLast false (sizeOneMember root aos false v.absolute_offset
        (v.members.getD (v.members.length - 1) default))).padded_size < U32MOD := by
    rw [hLo]
    have := alignDown16_le
      ((sizeOneMember root aos false v.absolute_offset
        (v.members.getD (v.members.length - 1) default)).offset +
       (sizeOneMember root aos false v.absolute_offset
        (v.members.getD (v.members.length - 1) default)).size + 15)
    omega
  rw [pdbvs_unfold root aos false v h1]
  dsimp only
  refine ⟨?_, ?_, ?_⟩
  · intro i hi
    rw [hlenP] at hi
    have hii : i < v.members.length := by omega
    have hmem : v.members.getD (i + 1) default ∈ v.members := by
      rw [List.getD_eq_getElem _ _ hi]
      exact List.getElem_mem _
    have hgi : (blockPadMembers false (blockSizedMembers root aos false v)).getD i default =
        blockPadMid false ((blockSizedMembers root aos false v).getD i default)
          (((blockSizedMembers root aos false v).getD (i + 1) default).offset) := by
      rw [blockPadMembers_getD false _ i (by rw [hlenS]; omega)]
      rw [if_pos (by rw [hlenS]; omega)]
    have hgi1off :
        ((blockPadMembers false (blockSizedMembers root aos false v)).getD (i + 1) default).offset =
          (v.members.getD (i + 1) default).offset := by
      rw [blockPadMembers_getD false _ (i + 1) (by rw [hlenS]; omega)]
      by_cases hnext : i + 1 + 1 < (blockSizedMembers root aos false v).length
      · rw [if_pos hnext, blockPadMid_offset, hoff (i + 1) hi]
      · rw [if_neg hnext, blockPadLast_offset, hoff (i + 1) hi]
    constructor
    · rw [hgi, hgi1off, blockPadMid_padded, blockPadMid_offset, hoff i hii, hoff (i + 1) hi]
      exact w32sub_exact (h3 i hi) (h2 _ hmem)
    · rw [hgi]
      exact blockPadMid_size_le _ _
  · rw [hlast]
    exact w32add_exact hbound
  · rw [hlast, w32add_exact hbound, hLo]
    exact hLmod

/-- Instantiation of C5 at the two-member uniform-buffer block: padding of
the first member is 4 - 0, the clamp holds, and the block size is the
16-aligned `last.offset + last.padded_size`. -/
theorem claim_C5_witness :
    (∀ i, i + 1 < (parse_descriptor_block_variable_sizes true false false ubBlockTwo).members.length →
       ((parse_descriptor_block_variable_sizes true false false ubBlockTwo).members.getD i default).padded_size =
         ((parse_descriptor_block_variable_sizes true false false ubBlockTwo).members.getD (i + 1) default).offset -
         ((parse_descriptor_block_variable_sizes true false false ubBlockTwo).members.getD i default).offset ∧
       ((parse_descriptor_block_variable_sizes true false false ubBlockTwo).members.getD i default).size ≤
         ((parse_descriptor_block_variable_sizes true false false ubBlockTwo).members.getD i default).padded_size) ∧
    (parse_descriptor_block_variable_sizes true false false ubBlockTwo).size =
      (((parse_descriptor_block_variable_sizes true false false ubBlockTwo).members.getD
        ((parse_descriptor_block_variable_sizes true false false ubBlockTwo).members.length - 1) default).offset) +
      (((parse_descriptor_block_variable_sizes true false false ubBlockTwo).members.getD
        ((parse_descriptor_block_variable_sizes true false false ubBlockTwo).members.length - 1) default).padded_size) ∧
    (parse_descriptor_block_variable_sizes true false false ubBlockTwo).size % 16 = 0 :=
  claim_C5 true false ubBlockTwo (by simp [ubBlockTwo]) (by decide)
    (by
      intro i hi
      have hi0 : i = 0 := by
        simp [ubBlockTwo] at hi
        omega
      subst hi0
      decide)
    (by rw [sizeOneMember]; decide)

/-- C10 (confirmed): the final step of `Parser::parse` mirrors
`entry_points[0]`'s name, id, execution model, stage and I/O variables into
the module's top-level fields when an entry point exists (leaving the other
module fields alone), and leaves everything untouched when `entry_points`
is empty. -/
theorem claim_C10 (m : ShaderModuleInternal) :
    (m.entry_points ≠ [] →
      ((mirrorFirstEntryPoint m).entry_point_name = (m.entry_points.getD 0 default).name ∧
       (mirrorFirstEntryPoint m).entry_point_id = (m.entry_points.getD 0 default).id ∧
       (mirrorFirstEntryPoint m).spirv_execution_model =
         (m.entry_points.getD 0 default).spirv_execution_model ∧
       (mirrorFirstEntryPoint m).shader_stage = (m.entry_points.getD 0 default).shader_stage ∧
       (mirrorFirstEntryPoint m).input_variables =
         (m.entry_points.getD 0 default).input_variables ∧
       (mirrorFirstEntryPoint m).output_variables =
         (m.entry_points.getD 0 default).output_variables ∧
       (mirrorFirstEntryPoint m).entry_points = m.entry_points ∧
       (mirrorFirstEntryPoint m).descriptor_bindings = m.descriptor_bindings)) ∧
    (m.entry_points = [] → mirrorFirstEntryPoint m = m) := by
  constructor
  · intro h
    unfold mirrorFirstEntryPoint
    rw [if_pos (List.length_pos.2 h)]
    exact ⟨rfl, rfl, rfl, rfl, rfl, rfl, rfl, rfl⟩
  · intro h
    unfold mirrorFirstEntryPoint
    rw [h]
    rfl

/-- Witness for C10 at the concrete two-entry-point module. -/
theorem claim_C10_witness :
    c10module.entry_points ≠ [] ∧
    (mirrorFirstEntryPoint c10module).entry_point_id =
      (c10module.entry_points.getD 0 default).id :=
  ⟨by decide, ((claim_C10 c10module).1 (by decide)).2.1⟩

end SpirvReflect
